import Mathlib

/-!
Startup sequencer of the bare-metal machine controller manager.

A shallow embedding of `cmd/manager/main.go`: the functions `main` and
`waitForAPIs`.  Every call to an external collaborator (flag parsing, the
discovery client, the logger, the manager, the actuator, the scheme builders)
is recorded as an `Event` in a trace; what each collaborator answers is given
by an `Env`.  The retry loop of `waitForAPIs` has no bound in the source, so the
model takes a fuel argument and reports `Halt.running` when the fuel is spent
while the loop is still going.
-/

namespace CapbmManager

/-! ## Data model -/

/-- Go `error` values, represented by their `Error()` text. -/
abbrev Err := String

/-- The `schema.GroupVersion` struct. -/
structure GroupVersion where
  Group : String
  Version : String
deriving DecidableEq, Repr

/-- The `String` method of `schema.GroupVersion`, which `%v` prints. -/
def GroupVersion.String (gv : GroupVersion) : String :=
  if gv.Group = "" then gv.Version else gv.Group ++ "/" ++ gv.Version

/-- The fields of `manager.Options` that `main` sets; `Namespace` is `""` (the Go
zero value) unless assigned. -/
structure Options where
  MetricsBindAddress : String
  LeaderElection : Bool
  LeaderElectionID : String
  Namespace : String
deriving DecidableEq, Repr

/-- The two loggers of the source: `log` is
`logf.Log.WithName("baremetal-controller-manager")`, `entryLog` is
`log.WithName("entrypoint")`. -/
inductive Logger where
  | log
  | entryLog
deriving DecidableEq, Repr

/-- Observable effects: one constructor per collaborator call made by the source. -/
inductive Event where
  | flagParse
  | getConfigOrDie
  | newDiscoveryClientForConfig
  | serverSupportsVersion (gv : GroupVersion)
  | logInfo (logger : Logger) (msg : String)
  | logError (logger : Logger) (err : Err) (msg : String)
  | klogInfof (format : String) (arg : String)
  | sleep (seconds : Nat)
  | managerNew (opts : Options)
  | newActuator
  | apisAddToScheme
  | machinev1beta1AddToScheme
  | bmoapisAddToScheme
  | addWithActuator
  | controllerAddToManager
  | mgrStart
deriving DecidableEq, Repr

/-- What `config.GetConfigOrDie()` does: it exits the process itself, or hands
back a nil pointer, or hands back a config. -/
inductive ConfigResult where
  | died
  | nilConfig
  | config
deriving DecidableEq, Repr

/-- The values given on the command line; `none` means the flag was not given. -/
structure CmdLine where
  watchNamespace : Option String
  metricsAddr : Option String
  enableLeaderElection : Option Bool
deriving DecidableEq, Repr

/-- The answers of the external collaborators in one execution.  An `Option Err`
is a Go `error`: `none` is `nil`.  `serverSupportsVersion i` is the answer to
the `i`-th discovery query (counted from 0). -/
structure Env where
  getConfigOrDie : ConfigResult
  newDiscoveryClientForConfig : Option Err
  serverSupportsVersion : Nat → Option Err
  managerNew : Option Err
  newActuator : Option Err
  apisAddToScheme : Option Err
  machinev1beta1AddToScheme : Option Err
  bmoapisAddToScheme : Option Err
  addWithActuator : Option Err
  controllerAddToManager : Option Err
  mgrStart : Option Err

/-- Ways in which a computation stops without returning to its caller. -/
inductive Halt where
  | exited (code : Nat)
  | panicked (value : String)
  | running
deriving DecidableEq, Repr

/-- An effectful computation: the trace it emits, and either its return value
or the way it stopped. -/
structure Proc (α : Type) where
  trace : List Event
  result : Except Halt α

/-- Sequencing: the second computation runs only if the first one returned. -/
def Proc.bind {α β : Type} (m : Proc α) (f : α → Proc β) : Proc β :=
  match m.result with
  | .ok a => ⟨m.trace ++ (f a).trace, (f a).result⟩
  | .error h => ⟨m.trace, .error h⟩

instance : Monad Proc where
  pure a := ⟨[], .ok a⟩
  bind := Proc.bind

/-- A collaborator call that answers `r`. -/
def call {α : Type} (ev : Event) (r : α) : Proc α := ⟨[ev], .ok r⟩

/-- An effect without a result. -/
def emit (ev : Event) : Proc Unit := ⟨[ev], .ok ()⟩

/-- The call `os.Exit(code)`. -/
def osExit {α : Type} (code : Nat) : Proc α := ⟨[], .error (.exited code)⟩

/-- The Go builtin `panic`, applied to a value that prints as `value`. -/
def goPanic {α : Type} (value : String) : Proc α := ⟨[], .error (.panicked value)⟩

/-- The loop is still going and the fuel is spent. -/
def stillRunning {α : Type} : Proc α := ⟨[], .error .running⟩

/-- The exit status of the process for each way `main` can end: a normal return
is status 0, `os.Exit(c)` is status `c`, and the Go runtime ends a panicking
program with status 2. -/
def exitStatus : Except Halt Unit → Option Nat
  | .ok () => some 0
  | .error (.exited c) => some c
  | .error (.panicked _) => some 2
  | .error .running => none

/-! ## `waitForAPIs` -/

/-- The value of `fmt.Sprintf("Waiting for API group %v to be available: %v", gv, err)`. -/
def waitingMsg (gv : GroupVersion) (err : Err) : String :=
  "Waiting for API group " ++ gv.String ++ " to be available: " ++ err

/-- The value of `fmt.Sprintf("Found API group %v", gv)`. -/
def foundMsg (gv : GroupVersion) : String :=
  "Found API group " ++ gv.String

/-- The constant `metal3GV` of `waitForAPIs`. -/
def metal3GV : GroupVersion := ⟨"metal3.io", "v1alpha1"⟩

/-- The `for` loop of `waitForAPIs`; `i` counts the queries made so far. -/
def waitLoop (env : Env) : Nat → Nat → Proc Unit
  | 0, _ => stillRunning
  | fuel + 1, i => do
    let err ← call (.serverSupportsVersion metal3GV) (env.serverSupportsVersion i)
    match err with
    | some e => do
      emit (.logInfo .log (waitingMsg metal3GV e))
      emit (.sleep 10)
      waitLoop env fuel (i + 1)
    | none =>
      emit (.logInfo .log (foundMsg metal3GV))

/-- The function `waitForAPIs`. -/
def waitForAPIs (env : Env) (fuel : Nat) : Proc (Option Err) := do
  let err ← call .newDiscoveryClientForConfig env.newDiscoveryClientForConfig
  match err with
  | some e => pure (some e)
  | none => do
    waitLoop env fuel 0
    pure none

/-! ## `main` -/

/-- A string flag: the value given, or else the declared default. -/
def flagString (given : Option String) (dflt : String) : String := given.getD dflt

/-- A boolean flag: the value given, or else the declared default. -/
def flagBool (given : Option Bool) (dflt : Bool) : Bool := given.getD dflt

/-- The format string of the `klog.Infof` call in `main`. -/
def watchingFormat : String :=
  "Watching machine-api objects only in namespace %q for reconciliation."

/-- The library call `config.GetConfigOrDie()`: it ends the process itself with
`os.Exit(1)` when it cannot load a config; otherwise it returns the pointer, and
the result here says whether that pointer is non-nil. -/
def getConfigOrDie (env : Env) : Proc Bool :=
  match env.getConfigOrDie with
  | .died => ⟨[.getConfigOrDie], .error (.exited 1)⟩
  | .nilConfig => ⟨[.getConfigOrDie], .ok false⟩
  | .config => ⟨[.getConfigOrDie], .ok true⟩

/-- The function `main`.  The set-up of the loggers (`klog.InitFlags`,
`logf.SetLogger`, `WithName`) has no event of its own; `flag.Parse` is the event
`flagParse`, and the three flag values are read off the command line. -/
def main (cmd : CmdLine) (env : Env) (fuel : Nat) : Proc Unit := do
  let watchNamespace := flagString cmd.watchNamespace ""
  let metricsAddr := flagString cmd.metricsAddr ":8080"
  let enableLeaderElection := flagBool cmd.enableLeaderElection false
  emit .flagParse
  let cfg ← getConfigOrDie env
  if cfg = false then
    goPanic "GetConfigOrDie didn't die"
  let err ← waitForAPIs env fuel
  if let some e := err then
    emit (.logError .entryLog e "unable to discover required APIs")
    osExit 1
  let mut opts : Options :=
    ⟨metricsAddr, enableLeaderElection, "controller-leader-election-capbm", ""⟩
  if watchNamespace ≠ "" then
    opts := { opts with Namespace := watchNamespace }
    emit (.klogInfof watchingFormat opts.Namespace)
  let err ← call (.managerNew opts) env.managerNew
  if let some e := err then
    emit (.logError .entryLog e "unable to set up overall controller manager")
    osExit 1
  let err ← call .newActuator env.newActuator
  if let some e := err then
    goPanic e
  let err ← call .apisAddToScheme env.apisAddToScheme
  if let some e := err then
    goPanic e
  let err ← call .machinev1beta1AddToScheme env.machinev1beta1AddToScheme
  if let some e := err then
    goPanic e
  let err ← call .bmoapisAddToScheme env.bmoapisAddToScheme
  if let some e := err then
    goPanic e
  let _ ← call .addWithActuator env.addWithActuator
  let err ← call .controllerAddToManager env.controllerAddToManager
  if let some e := err then
    emit (.logError .log e "Failed to add controller to manager")
    osExit 1
  let err ← call .mgrStart env.mgrStart
  if let some e := err then
    emit (.logError .entryLog e "unable to run manager")
    osExit 1

/-! ## Classifying events -/

/-- Discovery queries. -/
def Event.isQuery : Event → Bool
  | .serverSupportsVersion _ => true
  | _ => false

/-- Lines written through the loggers of the source with `Info`. -/
def Event.isLogInfo : Event → Bool
  | .logInfo _ _ => true
  | _ => false

/-- Lines written through the loggers of the source with `Error`. -/
def Event.isLogError : Event → Bool
  | .logError _ _ _ => true
  | _ => false

/-- Sleeps. -/
def Event.isSleep : Event → Bool
  | .sleep _ => true
  | _ => false

/-- The events `waitForAPIs` can emit. -/
def Event.isProbe : Event → Bool
  | .newDiscoveryClientForConfig => true
  | .serverSupportsVersion _ => true
  | .logInfo _ _ => true
  | .sleep _ => true
  | _ => false

/-- The events `main` can emit up to and including the call of `manager.New`. -/
def Event.isEarly : Event → Bool
  | .flagParse => true
  | .getConfigOrDie => true
  | .newDiscoveryClientForConfig => true
  | .serverSupportsVersion _ => true
  | .logInfo _ _ => true
  | .sleep _ => true
  | .klogInfof _ _ => true
  | .managerNew _ => true
  | _ => false

/-- Writes to the scheme of the manager: the three `AddToScheme` calls. -/
def Event.isSchemeWrite : Event → Bool
  | .apisAddToScheme => true
  | .machinev1beta1AddToScheme => true
  | .bmoapisAddToScheme => true
  | _ => false

/-- Controller registration calls: `maomachine.AddWithActuator` and
`controller.AddToManager`. -/
def Event.isControllerRegistration : Event → Bool
  | .addWithActuator => true
  | .controllerAddToManager => true
  | _ => false

/-- Construction of the manager, construction of the actuator, and the three
scheme registrations. -/
def Event.isSetupCall : Event → Bool
  | .managerNew _ => true
  | .newActuator => true
  | .apisAddToScheme => true
  | .machinev1beta1AddToScheme => true
  | .bmoapisAddToScheme => true
  | _ => false

/-- The calls whose error `main` answers with an `Error` log line and
`os.Exit(1)`: the construction of the discovery client (whose error
`waitForAPIs` returns), `manager.New`, `controller.AddToManager`, `mgr.Start`. -/
def Event.errorIsLogged : Event → Bool
  | .newDiscoveryClientForConfig => true
  | .managerNew _ => true
  | .controllerAddToManager => true
  | .mgrStart => true
  | _ => false

/-- The calls whose error `main` answers with `panic(err)`:
`machine.NewActuator` and the three `AddToScheme` calls. -/
def Event.errorIsPanic : Event → Bool
  | .newActuator => true
  | .apisAddToScheme => true
  | .machinev1beta1AddToScheme => true
  | .bmoapisAddToScheme => true
  | _ => false

/-- The answer of the environment to a call that `main` makes at most once. -/
def Env.answer (env : Env) : Event → Option Err
  | .newDiscoveryClientForConfig => env.newDiscoveryClientForConfig
  | .managerNew _ => env.managerNew
  | .newActuator => env.newActuator
  | .apisAddToScheme => env.apisAddToScheme
  | .machinev1beta1AddToScheme => env.machinev1beta1AddToScheme
  | .bmoapisAddToScheme => env.bmoapisAddToScheme
  | .addWithActuator => env.addWithActuator
  | .controllerAddToManager => env.controllerAddToManager
  | .mgrStart => env.mgrStart
  | _ => none

/-! ## Stages -/

/-- The stages of the startup sequence. -/
inductive Stage where
  | ParseConfig
  | ProbeReadiness
  | ConstructManager
  | RegisterSchemes
  | ConstructActuator
  | RegisterControllers
  | Run
deriving DecidableEq, Repr

/-- The position of a stage in the order the specification gives:
ParseConfig, ProbeReadiness, ConstructManager, RegisterSchemes,
ConstructActuator, RegisterControllers, Run. -/
def Stage.specOrder : Stage → Nat
  | .ParseConfig => 0
  | .ProbeReadiness => 1
  | .ConstructManager => 2
  | .RegisterSchemes => 3
  | .ConstructActuator => 4
  | .RegisterControllers => 5
  | .Run => 6

/-- The position of a stage in the order of the statements of `main`: the
actuator is constructed before the schemes are registered. -/
def Stage.codeOrder : Stage → Nat
  | .ParseConfig => 0
  | .ProbeReadiness => 1
  | .ConstructManager => 2
  | .ConstructActuator => 3
  | .RegisterSchemes => 4
  | .RegisterControllers => 5
  | .Run => 6

/-- The stage a collaborator call belongs to; log lines belong to none. -/
def Event.stage : Event → Option Stage
  | .flagParse => some .ParseConfig
  | .getConfigOrDie => some .ParseConfig
  | .newDiscoveryClientForConfig => some .ProbeReadiness
  | .serverSupportsVersion _ => some .ProbeReadiness
  | .sleep _ => some .ProbeReadiness
  | .managerNew _ => some .ConstructManager
  | .newActuator => some .ConstructActuator
  | .apisAddToScheme => some .RegisterSchemes
  | .machinev1beta1AddToScheme => some .RegisterSchemes
  | .bmoapisAddToScheme => some .RegisterSchemes
  | .addWithActuator => some .RegisterControllers
  | .controllerAddToManager => some .RegisterControllers
  | .mgrStart => some .Run
  | .logInfo _ _ => none
  | .logError _ _ _ => none
  | .klogInfof _ _ => none

/-- The stages of a trace, in the order in which their calls are made. -/
def stagesOf (t : List Event) : List Stage := t.filterMap Event.stage

/-- A trace goes through the stages in the order given by `rank`: no call of a
stage comes after a call of a stage that `rank` puts later. -/
def RespectsOrder (rank : Stage → Nat) (t : List Event) : Prop :=
  (stagesOf t).Pairwise (fun a b => rank a ≤ rank b)

instance (rank : Stage → Nat) (t : List Event) : Decidable (RespectsOrder rank t) := by
  unfold RespectsOrder
  infer_instance

/-- The event `x` is a call of a stage that the specification puts after the
stage of the call `ev`. -/
def Event.isLaterStageThan (x ev : Event) : Bool :=
  match x.stage, ev.stage with
  | some s, some sf => decide (sf.specOrder < s.specOrder)
  | _, _ => false

/-! ## Shapes of traces -/

/-- One failed attempt of the loop: the query, the log line, the sleep. -/
def failedAttempt (err : Err) : List Event :=
  [.serverSupportsVersion metal3GV, .logInfo .log (waitingMsg metal3GV err), .sleep 10]

/-- The successful attempt of the loop: the query and the log line. -/
def successfulAttempt : List Event :=
  [.serverSupportsVersion metal3GV, .logInfo .log (foundMsg metal3GV)]

/-- The options `main` hands to `manager.New`, as a function of the command line. -/
def optionsOf (cmd : CmdLine) : Options :=
  ⟨flagString cmd.metricsAddr ":8080", flagBool cmd.enableLeaderElection false,
    "controller-leader-election-capbm", flagString cmd.watchNamespace ""⟩

/-- What `main` emits while building the options. -/
def optionsTrace (cmd : CmdLine) : List Event :=
  if flagString cmd.watchNamespace "" ≠ "" then
    [.klogInfof watchingFormat (flagString cmd.watchNamespace "")]
  else []

/-- The trace of `main` up to the return of `waitForAPIs`. -/
def probeTrace (env : Env) (fuel : Nat) : List Event :=
  [.flagParse, .getConfigOrDie] ++ (waitForAPIs env fuel).trace

/-- The trace of `main` up to and including the call of `manager.New`. -/
def managerTrace (cmd : CmdLine) (env : Env) (fuel : Nat) : List Event :=
  probeTrace env fuel ++ optionsTrace cmd ++ [.managerNew (optionsOf cmd)]

/-- The trace of `main` up to the call of `mgr.Start` when the target group is
there on the first query, the namespace flag is empty and leader election is
off; `metricsAddr` is the value of the metrics flag. -/
def happyTrace (metricsAddr : String) : List Event :=
  [.flagParse, .getConfigOrDie, .newDiscoveryClientForConfig,
    .serverSupportsVersion metal3GV, .logInfo .log (foundMsg metal3GV),
    .managerNew ⟨metricsAddr, false, "controller-leader-election-capbm", ""⟩,
    .newActuator, .apisAddToScheme, .machinev1beta1AddToScheme, .bmoapisAddToScheme,
    .addWithActuator, .controllerAddToManager, .mgrStart]

/-! ## Environments for concrete executions -/

/-- An environment in which every collaborator succeeds at once. -/
def okEnv : Env :=
  ⟨.config, none, fun _ => none, none, none, none, none, none, none, none, none⟩

/-- An environment whose first two discovery queries fail and whose third succeeds. -/
def envTwoFailures : Env :=
  { okEnv with serverSupportsVersion := fun i => if i < 2 then some "not found" else none }

/-- An environment in which the target group is never there. -/
def envAlwaysAbsent : Env :=
  { okEnv with serverSupportsVersion := fun _ => some "not found" }

/-- An environment in which the discovery client cannot be constructed, and in
which every discovery query would fail. -/
def envClientFails : Env :=
  { okEnv with
    newDiscoveryClientForConfig := some "bad config"
    serverSupportsVersion := fun _ => some "not found" }

/-- An environment in which the construction of the actuator fails. -/
def envActuatorFails : Env :=
  { okEnv with newActuator := some "boom" }

/-- An environment in which the second scheme registration fails. -/
def envMachineSchemeFails : Env :=
  { okEnv with machinev1beta1AddToScheme := some "boom" }

/-- An environment in which `maomachine.AddWithActuator` reports an error. -/
def envAddWithActuatorFails : Env :=
  { okEnv with addWithActuator := some "boom" }

/-- An environment in which `controller.AddToManager` reports an error. -/
def envAddToManagerFails : Env :=
  { okEnv with controllerAddToManager := some "boom" }

/-! ## Lemmas on the loop -/

theorem waitLoop_zero (env : Env) (i : Nat) : waitLoop env 0 i = stillRunning := rfl

theorem waitLoop_fail (env : Env) (fuel i : Nat) (e : Err)
    (h : env.serverSupportsVersion i = some e) :
    waitLoop env (fuel + 1) i =
      ⟨failedAttempt e ++ (waitLoop env fuel (i + 1)).trace,
        (waitLoop env fuel (i + 1)).result⟩ := by
  simp only [waitLoop, h, bind, Proc.bind, call, emit, failedAttempt]
  cases hr : (waitLoop env fuel (i + 1)).result <;> simp [hr]

theorem waitLoop_ok (env : Env) (fuel i : Nat) (h : env.serverSupportsVersion i = none) :
    waitLoop env (fuel + 1) i = ⟨successfulAttempt, .ok ()⟩ := by
  simp [waitLoop, h, bind, Proc.bind, call, emit, successfulAttempt]

theorem waitingMsg_ne_foundMsg (gv gv2 : GroupVersion) (e : Err) :
    waitingMsg gv e ≠ foundMsg gv2 := by
  intro h
  have h2 := congrArg (fun s => s.data.head?) h
  simp [waitingMsg, foundMsg] at h2

/-- Running the loop from query `i` on when the next `k` answers are failures
and the one after is a success. -/
theorem waitLoop_failures_then_success (env : Env) (errs : Nat → Err) :
    ∀ (k i fuel : Nat),
      (∀ j, j < k → env.serverSupportsVersion (i + j) = some (errs (i + j))) →
      env.serverSupportsVersion (i + k) = none → k < fuel →
      waitLoop env fuel i =
        ⟨(List.range k).flatMap (fun j => failedAttempt (errs (i + j))) ++ successfulAttempt,
          .ok ()⟩ := by
  intro k
  induction k with
  | zero =>
    intro i fuel _ hok hfuel
    obtain ⟨f, rfl⟩ : ∃ f, fuel = f + 1 := ⟨fuel - 1, by omega⟩
    simpa using waitLoop_ok env f i (by simpa using hok)
  | succ k ih =>
    intro i fuel hfail hok hfuel
    obtain ⟨f, rfl⟩ : ∃ f, fuel = f + 1 := ⟨fuel - 1, by omega⟩
    have h0 : env.serverSupportsVersion i = some (errs i) := by
      simpa using hfail 0 (by omega)
    have hrec := ih (i + 1) f
      (fun j hj => by
        have := hfail (j + 1) (by omega)
        rwa [show i + (j + 1) = i + 1 + j by omega] at this)
      (by rwa [show i + (k + 1) = i + 1 + k by omega] at hok) (by omega)
    rw [waitLoop_fail env f i (errs i) h0, hrec]
    simp only [List.range_succ_eq_map, List.flatMap_cons, List.flatMap_map, List.append_assoc,
      Nat.add_zero, Proc.mk.injEq, and_true]
    congr 2
    apply congrArg (fun g => List.flatMap (List.range k) g)
    funext j
    simp [Nat.succ_eq_add_one, Nat.add_assoc, Nat.add_comm 1 j]

/-- Running the loop from query `i` on with fuel `fuel` when the next `fuel`
answers are all failures. -/
theorem waitLoop_all_failures (env : Env) (errs : Nat → Err) :
    ∀ (fuel i : Nat),
      (∀ j, j < fuel → env.serverSupportsVersion (i + j) = some (errs (i + j))) →
      waitLoop env fuel i =
        ⟨(List.range fuel).flatMap (fun j => failedAttempt (errs (i + j))), .error .running⟩ := by
  intro fuel
  induction fuel with
  | zero => intro i _; simp [waitLoop_zero, stillRunning]
  | succ f ih =>
    intro i hfail
    have h0 : env.serverSupportsVersion i = some (errs i) := by
      simpa using hfail 0 (by omega)
    have hrec := ih (i + 1)
      (fun j hj => by
        have := hfail (j + 1) (by omega)
        rwa [show i + (j + 1) = i + 1 + j by omega] at this)
    rw [waitLoop_fail env f i (errs i) h0, hrec]
    simp only [List.range_succ_eq_map, List.flatMap_cons, List.flatMap_map,
      Nat.add_zero, Proc.mk.injEq, and_true]
    congr 1
    apply congrArg (fun g => List.flatMap (List.range f) g)
    funext j
    simp [Nat.succ_eq_add_one, Nat.add_assoc, Nat.add_comm 1 j]

/-- Mapping to one-element lists and flattening is mapping. -/
theorem flatMap_single {α β : Type} (f : α → β) (l : List α) :
    l.flatMap (fun a => [f a]) = l.map f := by
  induction l with
  | nil => rfl
  | cons a l ih => simp [List.flatMap_cons, ih]

/-- Flattening `n` copies of the same one-element list. -/
theorem flatMap_const_single {α β : Type} (b : β) (l : List α) :
    l.flatMap (fun _ => [b]) = List.replicate l.length b := by
  induction l with
  | nil => rfl
  | cons a l ih => simp [List.flatMap_cons, ih, List.replicate_succ]

/-- The loop emits nothing but queries, `Info` lines and sleeps. -/
theorem waitLoop_trace_isProbe (env : Env) :
    ∀ (fuel i : Nat), ∀ x ∈ (waitLoop env fuel i).trace, x.isProbe = true := by
  intro fuel
  induction fuel with
  | zero => intro i x hx; simp [waitLoop_zero, stillRunning] at hx
  | succ f ih =>
    intro i x hx
    cases h : env.serverSupportsVersion i with
    | none =>
      rw [waitLoop_ok env f i h] at hx
      simp [successfulAttempt] at hx
      rcases hx with rfl | rfl <;> rfl
    | some e =>
      rw [waitLoop_fail env f i e h] at hx
      simp [failedAttempt] at hx
      rcases hx with rfl | rfl | rfl | hx
      · rfl
      · rfl
      · rfl
      · exact ih (i + 1) x hx

/-- The function `waitForAPIs` when the discovery client cannot be constructed. -/
theorem waitForAPIs_of_client_error (env : Env) (fuel : Nat) (e : Err)
    (h : env.newDiscoveryClientForConfig = some e) :
    waitForAPIs env fuel = ⟨[.newDiscoveryClientForConfig], .ok (some e)⟩ := by
  simp [waitForAPIs, h, bind, Proc.bind, call, pure]

/-- The function `waitForAPIs` when the discovery client has been constructed. -/
theorem waitForAPIs_of_client (env : Env) (fuel : Nat)
    (h : env.newDiscoveryClientForConfig = none) :
    waitForAPIs env fuel =
      ⟨.newDiscoveryClientForConfig :: (waitLoop env fuel 0).trace,
        (waitLoop env fuel 0).result.map (fun _ => none)⟩ := by
  simp only [waitForAPIs, h, bind, Proc.bind, call, pure]
  cases hr : (waitLoop env fuel 0).result <;> simp [hr, Except.map]

/-- The function `waitForAPIs` emits nothing but the construction of the client,
queries, `Info` lines and sleeps. -/
theorem waitForAPIs_trace_isProbe (env : Env) (fuel : Nat) :
    ∀ x ∈ (waitForAPIs env fuel).trace, x.isProbe = true := by
  intro x hx
  cases h : env.newDiscoveryClientForConfig with
  | some e =>
    rw [waitForAPIs_of_client_error env fuel e h] at hx
    simp at hx
    subst hx; rfl
  | none =>
    rw [waitForAPIs_of_client env fuel h] at hx
    simp at hx
    rcases hx with rfl | hx
    · rfl
    · exact waitLoop_trace_isProbe env fuel 0 x hx

/-! ## Lemmas on `main` -/

theorem main_died (cmd : CmdLine) (env : Env) (fuel : Nat)
    (hcfg : env.getConfigOrDie = .died) :
    main cmd env fuel = ⟨[.flagParse, .getConfigOrDie], .error (.exited 1)⟩ := by
  simp [main, bind, Proc.bind, call, emit, osExit, hcfg, getConfigOrDie]

theorem main_nilConfig (cmd : CmdLine) (env : Env) (fuel : Nat)
    (hcfg : env.getConfigOrDie = .nilConfig) :
    main cmd env fuel =
      ⟨[.flagParse, .getConfigOrDie], .error (.panicked "GetConfigOrDie didn't die")⟩ := by
  simp [main, bind, Proc.bind, call, emit, goPanic, pure, hcfg, getConfigOrDie]

theorem main_probe_halted (cmd : CmdLine) (env : Env) (fuel : Nat) (h : Halt)
    (hcfg : env.getConfigOrDie = .config)
    (hw : (waitForAPIs env fuel).result = .error h) :
    main cmd env fuel = ⟨probeTrace env fuel, .error h⟩ := by
  simp [main, bind, Proc.bind, call, emit, pure, hcfg, hw, probeTrace, getConfigOrDie]

theorem main_probe_error (cmd : CmdLine) (env : Env) (fuel : Nat) (e : Err)
    (hcfg : env.getConfigOrDie = .config)
    (hw : (waitForAPIs env fuel).result = .ok (some e)) :
    main cmd env fuel =
      ⟨probeTrace env fuel ++ [.logError .entryLog e "unable to discover required APIs"],
        .error (.exited 1)⟩ := by
  simp [main, bind, Proc.bind, call, emit, osExit, pure, hcfg, hw, probeTrace, getConfigOrDie]

theorem main_managerNew_error (cmd : CmdLine) (env : Env) (fuel : Nat) (e : Err)
    (hcfg : env.getConfigOrDie = .config)
    (hw : (waitForAPIs env fuel).result = .ok none)
    (hmgr : env.managerNew = some e) :
    main cmd env fuel =
      ⟨managerTrace cmd env fuel ++
          [.logError .entryLog e "unable to set up overall controller manager"],
        .error (.exited 1)⟩ := by
  by_cases hns : flagString cmd.watchNamespace "" = "" <;>
  simp [main, bind, Proc.bind, call, emit, osExit, pure, hcfg, hw, hmgr, getConfigOrDie,
    optionsTrace, optionsOf, hns, managerTrace, probeTrace]

theorem main_newActuator_error (cmd : CmdLine) (env : Env) (fuel : Nat) (e : Err)
    (hcfg : env.getConfigOrDie = .config)
    (hw : (waitForAPIs env fuel).result = .ok none)
    (hmgr : env.managerNew = none)
    (hact : env.newActuator = some e) :
    main cmd env fuel =
      ⟨managerTrace cmd env fuel ++ [.newActuator], .error (.panicked e)⟩ := by
  by_cases hns : flagString cmd.watchNamespace "" = "" <;>
  simp [main, bind, Proc.bind, call, emit, goPanic, pure, hcfg, hw, hmgr, hact, getConfigOrDie,
    optionsTrace, optionsOf, hns, managerTrace, probeTrace]

theorem main_apis_error (cmd : CmdLine) (env : Env) (fuel : Nat) (e : Err)
    (hcfg : env.getConfigOrDie = .config)
    (hw : (waitForAPIs env fuel).result = .ok none)
    (hmgr : env.managerNew = none)
    (hact : env.newActuator = none)
    (hapis : env.apisAddToScheme = some e) :
    main cmd env fuel =
      ⟨managerTrace cmd env fuel ++ [.newActuator, .apisAddToScheme], .error (.panicked e)⟩ := by
  by_cases hns : flagString cmd.watchNamespace "" = "" <;>
  simp [main, bind, Proc.bind, call, emit, goPanic, pure, hcfg, hw, hmgr, hact, hapis,
    getConfigOrDie, optionsTrace, optionsOf, hns, managerTrace, probeTrace]

theorem main_machine_error (cmd : CmdLine) (env : Env) (fuel : Nat) (e : Err)
    (hcfg : env.getConfigOrDie = .config)
    (hw : (waitForAPIs env fuel).result = .ok none)
    (hmgr : env.managerNew = none)
    (hact : env.newActuator = none)
    (hapis : env.apisAddToScheme = none)
    (hmach : env.machinev1beta1AddToScheme = some e) :
    main cmd env fuel =
      ⟨managerTrace cmd env fuel ++
          [.newActuator, .apisAddToScheme, .machinev1beta1AddToScheme],
        .error (.panicked e)⟩ := by
  by_cases hns : flagString cmd.watchNamespace "" = "" <;>
  simp [main, bind, Proc.bind, call, emit, goPanic, pure, hcfg, hw, hmgr, hact, hapis, hmach,
    getConfigOrDie, optionsTrace, optionsOf, hns, managerTrace, probeTrace]

theorem main_bmo_error (cmd : CmdLine) (env : Env) (fuel : Nat) (e : Err)
    (hcfg : env.getConfigOrDie = .config)
    (hw : (waitForAPIs env fuel).result = .ok none)
    (hmgr : env.managerNew = none)
    (hact : env.newActuator = none)
    (hapis : env.apisAddToScheme = none)
    (hmach : env.machinev1beta1AddToScheme = none)
    (hbmo : env.bmoapisAddToScheme = some e) :
    main cmd env fuel =
      ⟨managerTrace cmd env fuel ++
          [.newActuator, .apisAddToScheme, .machinev1beta1AddToScheme, .bmoapisAddToScheme],
        .error (.panicked e)⟩ := by
  by_cases hns : flagString cmd.watchNamespace "" = "" <;>
  simp [main, bind, Proc.bind, call, emit, goPanic, pure, hcfg, hw, hmgr, hact, hapis, hmach,
      hbmo, getConfigOrDie, optionsTrace, optionsOf, hns, managerTrace, probeTrace]

theorem main_addToManager_error (cmd : CmdLine) (env : Env) (fuel : Nat) (e : Err)
    (hcfg : env.getConfigOrDie = .config)
    (hw : (waitForAPIs env fuel).result = .ok none)
    (hmgr : env.managerNew = none)
    (hact : env.newActuator = none)
    (hapis : env.apisAddToScheme = none)
    (hmach : env.machinev1beta1AddToScheme = none)
    (hbmo : env.bmoapisAddToScheme = none)
    (hctl : env.controllerAddToManager = some e) :
    main cmd env fuel =
      ⟨managerTrace cmd env fuel ++
          [.newActuator, .apisAddToScheme, .machinev1beta1AddToScheme, .bmoapisAddToScheme,
            .addWithActuator, .controllerAddToManager,
            .logError .log e "Failed to add controller to manager"],
        .error (.exited 1)⟩ := by
  by_cases hns : flagString cmd.watchNamespace "" = "" <;>
  simp [main, bind, Proc.bind, call, emit, osExit, pure, hcfg, hw, hmgr, hact, hapis, hmach,
      hbmo, hctl, getConfigOrDie, optionsTrace, optionsOf, hns, managerTrace, probeTrace]

theorem main_start_error (cmd : CmdLine) (env : Env) (fuel : Nat) (e : Err)
    (hcfg : env.getConfigOrDie = .config)
    (hw : (waitForAPIs env fuel).result = .ok none)
    (hmgr : env.managerNew = none)
    (hact : env.newActuator = none)
    (hapis : env.apisAddToScheme = none)
    (hmach : env.machinev1beta1AddToScheme = none)
    (hbmo : env.bmoapisAddToScheme = none)
    (hctl : env.controllerAddToManager = none)
    (hstart : env.mgrStart = some e) :
    main cmd env fuel =
      ⟨managerTrace cmd env fuel ++
          [.newActuator, .apisAddToScheme, .machinev1beta1AddToScheme, .bmoapisAddToScheme,
            .addWithActuator, .controllerAddToManager, .mgrStart,
            .logError .entryLog e "unable to run manager"],
        .error (.exited 1)⟩ := by
  by_cases hns : flagString cmd.watchNamespace "" = "" <;>
  simp [main, bind, Proc.bind, call, emit, osExit, pure, hcfg, hw, hmgr, hact, hapis, hmach,
      hbmo, hctl, hstart, getConfigOrDie, optionsTrace, optionsOf, hns, managerTrace, probeTrace]

theorem main_success (cmd : CmdLine) (env : Env) (fuel : Nat)
    (hcfg : env.getConfigOrDie = .config)
    (hw : (waitForAPIs env fuel).result = .ok none)
    (hmgr : env.managerNew = none)
    (hact : env.newActuator = none)
    (hapis : env.apisAddToScheme = none)
    (hmach : env.machinev1beta1AddToScheme = none)
    (hbmo : env.bmoapisAddToScheme = none)
    (hctl : env.controllerAddToManager = none)
    (hstart : env.mgrStart = none) :
    main cmd env fuel =
      ⟨managerTrace cmd env fuel ++
          [.newActuator, .apisAddToScheme, .machinev1beta1AddToScheme, .bmoapisAddToScheme,
            .addWithActuator, .controllerAddToManager, .mgrStart],
        .ok ()⟩ := by
  by_cases hns : flagString cmd.watchNamespace "" = "" <;>
  simp [main, bind, Proc.bind, call, emit, pure, hcfg, hw, hmgr, hact, hapis, hmach,
      hbmo, hctl, hstart, getConfigOrDie, optionsTrace, optionsOf, hns, managerTrace, probeTrace]

/-- Case analysis on an execution of `main`: the twelve ways it can go. -/
theorem main_cases_on (cmd : CmdLine) (env : Env) (fuel : Nat) (motive : Proc Unit → Prop)
    (died : env.getConfigOrDie = .died →
      motive ⟨[.flagParse, .getConfigOrDie], .error (.exited 1)⟩)
    (nilConfig : env.getConfigOrDie = .nilConfig →
      motive ⟨[.flagParse, .getConfigOrDie], .error (.panicked "GetConfigOrDie didn't die")⟩)
    (probeHalted : ∀ h, env.getConfigOrDie = .config →
      (waitForAPIs env fuel).result = .error h →
      motive ⟨probeTrace env fuel, .error h⟩)
    (probeError : ∀ e, env.getConfigOrDie = .config →
      (waitForAPIs env fuel).result = .ok (some e) →
      motive ⟨probeTrace env fuel ++ [.logError .entryLog e "unable to discover required APIs"],
        .error (.exited 1)⟩)
    (managerNewError : ∀ e, env.getConfigOrDie = .config →
      (waitForAPIs env fuel).result = .ok none → env.managerNew = some e →
      motive ⟨managerTrace cmd env fuel ++
          [.logError .entryLog e "unable to set up overall controller manager"],
        .error (.exited 1)⟩)
    (newActuatorError : ∀ e, env.getConfigOrDie = .config →
      (waitForAPIs env fuel).result = .ok none → env.managerNew = none →
      env.newActuator = some e →
      motive ⟨managerTrace cmd env fuel ++ [.newActuator], .error (.panicked e)⟩)
    (apisError : ∀ e, env.getConfigOrDie = .config →
      (waitForAPIs env fuel).result = .ok none → env.managerNew = none →
      env.newActuator = none → env.apisAddToScheme = some e →
      motive ⟨managerTrace cmd env fuel ++ [.newActuator, .apisAddToScheme],
        .error (.panicked e)⟩)
    (machineError : ∀ e, env.getConfigOrDie = .config →
      (waitForAPIs env fuel).result = .ok none → env.managerNew = none →
      env.newActuator = none → env.apisAddToScheme = none →
      env.machinev1beta1AddToScheme = some e →
      motive ⟨managerTrace cmd env fuel ++
          [.newActuator, .apisAddToScheme, .machinev1beta1AddToScheme],
        .error (.panicked e)⟩)
    (bmoError : ∀ e, env.getConfigOrDie = .config →
      (waitForAPIs env fuel).result = .ok none → env.managerNew = none →
      env.newActuator = none → env.apisAddToScheme = none →
      env.machinev1beta1AddToScheme = none → env.bmoapisAddToScheme = some e →
      motive ⟨managerTrace cmd env fuel ++
          [.newActuator, .apisAddToScheme, .machinev1beta1AddToScheme, .bmoapisAddToScheme],
        .error (.panicked e)⟩)
    (addToManagerError : ∀ e, env.getConfigOrDie = .config →
      (waitForAPIs env fuel).result = .ok none → env.managerNew = none →
      env.newActuator = none → env.apisAddToScheme = none →
      env.machinev1beta1AddToScheme = none → env.bmoapisAddToScheme = none →
      env.controllerAddToManager = some e →
      motive ⟨managerTrace cmd env fuel ++
          [.newActuator, .apisAddToScheme, .machinev1beta1AddToScheme, .bmoapisAddToScheme,
            .addWithActuator, .controllerAddToManager,
            .logError .log e "Failed to add controller to manager"],
        .error (.exited 1)⟩)
    (startError : ∀ e, env.getConfigOrDie = .config →
      (waitForAPIs env fuel).result = .ok none → env.managerNew = none →
      env.newActuator = none → env.apisAddToScheme = none →
      env.machinev1beta1AddToScheme = none → env.bmoapisAddToScheme = none →
      env.controllerAddToManager = none → env.mgrStart = some e →
      motive ⟨managerTrace cmd env fuel ++
          [.newActuator, .apisAddToScheme, .machinev1beta1AddToScheme, .bmoapisAddToScheme,
            .addWithActuator, .controllerAddToManager, .mgrStart,
            .logError .entryLog e "unable to run manager"],
        .error (.exited 1)⟩)
    (success : env.getConfigOrDie = .config →
      (waitForAPIs env fuel).result = .ok none → env.managerNew = none →
      env.newActuator = none → env.apisAddToScheme = none →
      env.machinev1beta1AddToScheme = none → env.bmoapisAddToScheme = none →
      env.controllerAddToManager = none → env.mgrStart = none →
      motive ⟨managerTrace cmd env fuel ++
          [.newActuator, .apisAddToScheme, .machinev1beta1AddToScheme, .bmoapisAddToScheme,
            .addWithActuator, .controllerAddToManager, .mgrStart],
        .ok ()⟩) :
    motive (main cmd env fuel) := by
  cases hcfg : env.getConfigOrDie with
  | died => rw [main_died cmd env fuel hcfg]; exact died hcfg
  | nilConfig => rw [main_nilConfig cmd env fuel hcfg]; exact nilConfig hcfg
  | config =>
    cases hw : (waitForAPIs env fuel).result with
    | error h => rw [main_probe_halted cmd env fuel h hcfg hw]; exact probeHalted h hcfg hw
    | ok r =>
      cases r with
      | some e => rw [main_probe_error cmd env fuel e hcfg hw]; exact probeError e hcfg hw
      | none =>
        cases hmgr : env.managerNew with
        | some e =>
          rw [main_managerNew_error cmd env fuel e hcfg hw hmgr]
          exact managerNewError e hcfg hw hmgr
        | none =>
          cases hact : env.newActuator with
          | some e =>
            rw [main_newActuator_error cmd env fuel e hcfg hw hmgr hact]
            exact newActuatorError e hcfg hw hmgr hact
          | none =>
            cases hapis : env.apisAddToScheme with
            | some e =>
              rw [main_apis_error cmd env fuel e hcfg hw hmgr hact hapis]
              exact apisError e hcfg hw hmgr hact hapis
            | none =>
              cases hmach : env.machinev1beta1AddToScheme with
              | some e =>
                rw [main_machine_error cmd env fuel e hcfg hw hmgr hact hapis hmach]
                exact machineError e hcfg hw hmgr hact hapis hmach
              | none =>
                cases hbmo : env.bmoapisAddToScheme with
                | some e =>
                  rw [main_bmo_error cmd env fuel e hcfg hw hmgr hact hapis hmach hbmo]
                  exact bmoError e hcfg hw hmgr hact hapis hmach hbmo
                | none =>
                  cases hctl : env.controllerAddToManager with
                  | some e =>
                    rw [main_addToManager_error cmd env fuel e hcfg hw hmgr hact hapis hmach
                      hbmo hctl]
                    exact addToManagerError e hcfg hw hmgr hact hapis hmach hbmo hctl
                  | none =>
                    cases hstart : env.mgrStart with
                    | some e =>
                      rw [main_start_error cmd env fuel e hcfg hw hmgr hact hapis hmach
                        hbmo hctl hstart]
                      exact startError e hcfg hw hmgr hact hapis hmach hbmo hctl hstart
                    | none =>
                      rw [main_success cmd env fuel hcfg hw hmgr hact hapis hmach
                        hbmo hctl hstart]
                      exact success hcfg hw hmgr hact hapis hmach hbmo hctl hstart

/-- An event that `waitForAPIs` cannot emit is not in its trace. -/
theorem not_mem_waitForAPIs_trace (env : Env) (fuel : Nat) (x : Event)
    (h : x.isProbe = false) : x ∉ (waitForAPIs env fuel).trace := by
  intro hx
  have := waitForAPIs_trace_isProbe env fuel x hx
  simp [h] at this

/-- An event that `waitForAPIs` cannot emit is in the trace up to its return
only if it is one of the two calls before it. -/
theorem mem_probeTrace_of_not_isProbe (env : Env) (fuel : Nat) (x : Event)
    (h : x.isProbe = false) :
    x ∈ probeTrace env fuel ↔ x = .flagParse ∨ x = .getConfigOrDie := by
  simp [probeTrace, not_mem_waitForAPIs_trace env fuel x h]

/-- The events on building the options are `klog` lines. -/
theorem mem_optionsTrace (cmd : CmdLine) (x : Event) (h : x ∈ optionsTrace cmd) :
    x = .klogInfof watchingFormat (flagString cmd.watchNamespace "") := by
  unfold optionsTrace at h
  split at h <;> simp at h
  exact h

/-- Every event up to the return of `waitForAPIs` is an early one. -/
theorem probeTrace_isEarly (env : Env) (fuel : Nat) :
    ∀ x ∈ probeTrace env fuel, x.isEarly = true := by
  intro x hx
  simp only [probeTrace, List.mem_append, List.mem_cons, List.mem_singleton,
    List.not_mem_nil, or_false] at hx
  rcases hx with (rfl | rfl) | hx
  · rfl
  · rfl
  · have := waitForAPIs_trace_isProbe env fuel x hx
    cases x <;> simp_all [Event.isProbe, Event.isEarly]

/-- Every event up to the call of `manager.New` is an early one. -/
theorem managerTrace_isEarly (cmd : CmdLine) (env : Env) (fuel : Nat) :
    ∀ x ∈ managerTrace cmd env fuel, x.isEarly = true := by
  intro x hx
  simp only [managerTrace, List.mem_append, List.mem_singleton] at hx
  rcases hx with (hx | hx) | rfl
  · exact probeTrace_isEarly env fuel x hx
  · rw [mem_optionsTrace cmd x hx]; rfl
  · rfl

/-- A list splits around an element that occurs once in only one way. -/
theorem split_unique {A C pre post : List Event} {x : Event} (hA : x ∉ A) (hC : x ∉ C)
    (h : A ++ x :: C = pre ++ x :: post) : pre = A ∧ post = C := by
  have := (List.append_cons_inj_of_not_mem hA hC).mp h
  exact ⟨this.1.symm, this.2.2.symm⟩

/-- Splitting a list whose front part does not contain the element. -/
theorem split_append {A B pre post : List Event} {x : Event} (hA : x ∉ A)
    (h : A ++ B = pre ++ x :: post) : ∃ B1, pre = A ++ B1 ∧ B = B1 ++ x :: post := by
  rcases List.append_eq_append_iff.mp h with ⟨a, rfl, hB⟩ | ⟨c, hA2, hc⟩
  · exact ⟨a, rfl, hB⟩
  · cases c with
    | nil =>
      refine ⟨[], ?_, ?_⟩
      · simpa using hA2.symm
      · simpa using hc.symm
    | cons c cs =>
      exfalso
      simp only [List.cons_append, List.cons.injEq] at hc
      obtain ⟨rfl, -⟩ := hc
      apply hA
      rw [hA2]
      simp

/-- A relation that holds whenever its left argument is an early event holds
pairwise on a trace that starts with early events and goes on with a list on
which it holds pairwise. -/
theorem pairwise_early_append (R : Event → Event → Prop) (M B : List Event)
    (hM : ∀ a ∈ M, a.isEarly = true) (hR : ∀ a b, a.isEarly = true → R a b)
    (hB : B.Pairwise R) : (M ++ B).Pairwise R := by
  rw [List.pairwise_append]
  exact ⟨List.pairwise_of_forall_mem_list (fun a ha b _ => hR a b (hM a ha)), hB,
    fun a ha b _ => hR a b (hM a ha)⟩

/-- In a trace that goes through all calls up to `controller.AddToManager`, the
three scheme writes come before every controller registration call. -/
theorem registration_split (M R pre post : List Event) (x : Event)
    (hM : ∀ y ∈ M, y.isEarly = true)
    (hR : ∀ y ∈ R, y.isControllerRegistration = false)
    (hx : x.isControllerRegistration = true)
    (h : M ++ ([.newActuator, .apisAddToScheme, .machinev1beta1AddToScheme,
        .bmoapisAddToScheme, .addWithActuator, .controllerAddToManager] ++ R) =
      pre ++ x :: post) :
    Event.apisAddToScheme ∈ pre ∧ Event.machinev1beta1AddToScheme ∈ pre ∧
      Event.bmoapisAddToScheme ∈ pre := by
  have hxM : x ∉ M := by
    intro hmem
    have := hM x hmem
    cases x <;> simp_all [Event.isEarly, Event.isControllerRegistration]
  obtain ⟨B1, rfl, hB⟩ := split_append hxM h
  simp only [List.cons_append, List.nil_append, List.cons_eq_append_iff] at hB
  rcases hB with ⟨-, hB⟩ | ⟨_, rfl, ⟨-, hB⟩ | ⟨_, rfl, ⟨-, hB⟩ | ⟨_, rfl, ⟨-, hB⟩ |
    ⟨_, rfl, ⟨-, hB⟩ | ⟨_, rfl, ⟨-, hB⟩ | ⟨_, rfl, hB⟩⟩⟩⟩⟩⟩
  · simp at hB; obtain ⟨rfl, -⟩ := hB; simp [Event.isControllerRegistration] at hx
  · simp at hB; obtain ⟨rfl, -⟩ := hB; simp [Event.isControllerRegistration] at hx
  · simp at hB; obtain ⟨rfl, -⟩ := hB; simp [Event.isControllerRegistration] at hx
  · simp at hB; obtain ⟨rfl, -⟩ := hB; simp [Event.isControllerRegistration] at hx
  · simp
  · simp
  · exfalso
    have hmem : x ∈ R := by rw [hB]; simp
    have := hR x hmem
    simp [hx] at this

/-- An early event is neither a controller registration nor the start of the manager. -/
theorem not_registration_of_isEarly (a : Event) (h : a.isEarly = true) :
    ¬ (a.isControllerRegistration = true ∨ a = .mgrStart) := by
  cases a <;> simp_all [Event.isEarly, Event.isControllerRegistration]

/-- A trace of early events followed by events that are no controller
registrations has no controller registration in it. -/
theorem no_registration (M B pre post : List Event) (x : Event)
    (hM : ∀ y ∈ M, y.isEarly = true)
    (hB : ∀ y ∈ B, y.isControllerRegistration = false)
    (h : M ++ B = pre ++ x :: post) : x.isControllerRegistration = false := by
  have hmem : x ∈ M ++ B := by rw [h]; simp
  rcases List.mem_append.mp hmem with hx | hx
  · have := not_registration_of_isEarly x (hM x hx)
    cases hr : x.isControllerRegistration
    · rfl
    · exact absurd (Or.inl hr) this
  · exact hB x hx

/-- Membership in the trace on building the options. -/
theorem mem_optionsTrace_iff (cmd : CmdLine) (x : Event) :
    x ∈ optionsTrace cmd ↔
      flagString cmd.watchNamespace "" ≠ "" ∧
        x = .klogInfof watchingFormat (flagString cmd.watchNamespace "") := by
  unfold optionsTrace
  split <;> simp_all

/-- Membership in the trace up to `manager.New` of an event that `waitForAPIs`
cannot emit. -/
theorem mem_managerTrace_iff (cmd : CmdLine) (env : Env) (fuel : Nat) (x : Event)
    (h : x.isProbe = false) :
    x ∈ managerTrace cmd env fuel ↔
      x = .flagParse ∨ x = .getConfigOrDie ∨
        (flagString cmd.watchNamespace "" ≠ "" ∧
          x = .klogInfof watchingFormat (flagString cmd.watchNamespace "")) ∨
        x = .managerNew (optionsOf cmd) := by
  simp only [managerTrace, List.mem_append, List.mem_singleton,
    mem_probeTrace_of_not_isProbe env fuel x h, mem_optionsTrace_iff, or_assoc]

/-- What has happened when one of the calls of `main` after the readiness probe
is in the trace: the calls before it have answered nil. -/
theorem reach (cmd : CmdLine) (env : Env) (fuel : Nat) :
    (∀ o, Event.managerNew o ∈ (main cmd env fuel).trace →
      o = optionsOf cmd ∧ env.getConfigOrDie = .config ∧
        (waitForAPIs env fuel).result = .ok none) ∧
    (Event.newActuator ∈ (main cmd env fuel).trace →
      env.getConfigOrDie = .config ∧ (waitForAPIs env fuel).result = .ok none ∧
        env.managerNew = none) ∧
    (Event.apisAddToScheme ∈ (main cmd env fuel).trace →
      env.getConfigOrDie = .config ∧ (waitForAPIs env fuel).result = .ok none ∧
        env.managerNew = none ∧ env.newActuator = none) ∧
    (Event.machinev1beta1AddToScheme ∈ (main cmd env fuel).trace →
      env.getConfigOrDie = .config ∧ (waitForAPIs env fuel).result = .ok none ∧
        env.managerNew = none ∧ env.newActuator = none ∧ env.apisAddToScheme = none) ∧
    (Event.bmoapisAddToScheme ∈ (main cmd env fuel).trace →
      env.getConfigOrDie = .config ∧ (waitForAPIs env fuel).result = .ok none ∧
        env.managerNew = none ∧ env.newActuator = none ∧ env.apisAddToScheme = none ∧
        env.machinev1beta1AddToScheme = none) ∧
    (Event.controllerAddToManager ∈ (main cmd env fuel).trace →
      env.getConfigOrDie = .config ∧ (waitForAPIs env fuel).result = .ok none ∧
        env.managerNew = none ∧ env.newActuator = none ∧ env.apisAddToScheme = none ∧
        env.machinev1beta1AddToScheme = none ∧ env.bmoapisAddToScheme = none) ∧
    (Event.mgrStart ∈ (main cmd env fuel).trace →
      env.getConfigOrDie = .config ∧ (waitForAPIs env fuel).result = .ok none ∧
        env.managerNew = none ∧ env.newActuator = none ∧ env.apisAddToScheme = none ∧
        env.machinev1beta1AddToScheme = none ∧ env.bmoapisAddToScheme = none ∧
        env.controllerAddToManager = none) := by
  apply main_cases_on cmd env fuel (fun p =>
    (∀ o, Event.managerNew o ∈ p.trace →
      o = optionsOf cmd ∧ env.getConfigOrDie = .config ∧
        (waitForAPIs env fuel).result = .ok none) ∧
    (Event.newActuator ∈ p.trace →
      env.getConfigOrDie = .config ∧ (waitForAPIs env fuel).result = .ok none ∧
        env.managerNew = none) ∧
    (Event.apisAddToScheme ∈ p.trace →
      env.getConfigOrDie = .config ∧ (waitForAPIs env fuel).result = .ok none ∧
        env.managerNew = none ∧ env.newActuator = none) ∧
    (Event.machinev1beta1AddToScheme ∈ p.trace →
      env.getConfigOrDie = .config ∧ (waitForAPIs env fuel).result = .ok none ∧
        env.managerNew = none ∧ env.newActuator = none ∧ env.apisAddToScheme = none) ∧
    (Event.bmoapisAddToScheme ∈ p.trace →
      env.getConfigOrDie = .config ∧ (waitForAPIs env fuel).result = .ok none ∧
        env.managerNew = none ∧ env.newActuator = none ∧ env.apisAddToScheme = none ∧
        env.machinev1beta1AddToScheme = none) ∧
    (Event.controllerAddToManager ∈ p.trace →
      env.getConfigOrDie = .config ∧ (waitForAPIs env fuel).result = .ok none ∧
        env.managerNew = none ∧ env.newActuator = none ∧ env.apisAddToScheme = none ∧
        env.machinev1beta1AddToScheme = none ∧ env.bmoapisAddToScheme = none) ∧
    (Event.mgrStart ∈ p.trace →
      env.getConfigOrDie = .config ∧ (waitForAPIs env fuel).result = .ok none ∧
        env.managerNew = none ∧ env.newActuator = none ∧ env.apisAddToScheme = none ∧
        env.machinev1beta1AddToScheme = none ∧ env.bmoapisAddToScheme = none ∧
        env.controllerAddToManager = none)) <;>
  · intros
    simp_all [mem_managerTrace_iff, mem_probeTrace_of_not_isProbe, Event.isProbe]

/-- The events after an element that occurs once. -/
theorem after_split (A C pre post t : List Event) (ev : Event) (hA : ev ∉ A) (hC : ev ∉ C)
    (ht : t = A ++ ev :: C) (h : t = pre ++ ev :: post) : post = C :=
  (split_unique hA hC (ht.symm.trans h)).2

/-- Every stage call of `waitForAPIs` belongs to the readiness probe. -/
theorem stagesOf_waitForAPIs (env : Env) (fuel : Nat) :
    ∀ s ∈ stagesOf (waitForAPIs env fuel).trace, s = Stage.ProbeReadiness := by
  intro s hs
  simp only [stagesOf, List.mem_filterMap] at hs
  obtain ⟨x, hx, hxs⟩ := hs
  have := waitForAPIs_trace_isProbe env fuel x hx
  cases x <;> simp_all [Event.isProbe, Event.stage]

/-- Building the options makes no stage call. -/
theorem stagesOf_optionsTrace (cmd : CmdLine) : stagesOf (optionsTrace cmd) = [] := by
  unfold optionsTrace
  split <;> rfl

/-- The discovery client is constructed only if there is a config. -/
theorem reach_client (cmd : CmdLine) (env : Env) (fuel : Nat) :
    Event.newDiscoveryClientForConfig ∈ (main cmd env fuel).trace →
      env.getConfigOrDie = .config := by
  apply main_cases_on cmd env fuel (fun p =>
    Event.newDiscoveryClientForConfig ∈ p.trace → env.getConfigOrDie = .config) <;>
  · intros
    simp_all

/-- No `Error` line is written up to the call of `manager.New`. -/
theorem managerTrace_no_logError (cmd : CmdLine) (env : Env) (fuel : Nat) :
    ∀ x ∈ managerTrace cmd env fuel, x.isLogError = false := by
  intro x hx
  have := managerTrace_isEarly cmd env fuel x hx
  cases x <;> simp_all [Event.isEarly, Event.isLogError]

/-! ## C1: failures followed by a success -/

/-- C1: once the discovery client has been constructed, on `k` failed discovery
queries followed by a successful one `waitForAPIs` returns nil (given fuel for
`k + 1` rounds, and with fuel for at most `k` rounds it has not returned yet);
it makes exactly `k + 1` queries, and its log lines and sleeps are exactly `k`
times (the waiting line, a sleep of 10 seconds) followed by the one found line. -/
theorem C1_waitForAPIs_failures_then_success (env : Env) (errs : Nat → Err) (k fuel : Nat)
    (hclient : env.newDiscoveryClientForConfig = none)
    (hfail : ∀ i, i < k → env.serverSupportsVersion i = some (errs i))
    (hok : env.serverSupportsVersion k = none)
    (hfuel : k < fuel) :
    (waitForAPIs env fuel).result = .ok none ∧
    (∀ small, small ≤ k → (waitForAPIs env small).result = .error .running) ∧
    (waitForAPIs env fuel).trace =
      .newDiscoveryClientForConfig ::
        ((List.range k).flatMap (fun i => failedAttempt (errs i)) ++ successfulAttempt) ∧
    ((waitForAPIs env fuel).trace.filter Event.isQuery).length = k + 1 ∧
    (waitForAPIs env fuel).trace.filter (fun x => x.isLogInfo || x.isSleep) =
      (List.range k).flatMap
          (fun i => [Event.logInfo .log (waitingMsg metal3GV (errs i)), Event.sleep 10]) ++
        [Event.logInfo .log (foundMsg metal3GV)] := by
  have hloop := waitLoop_failures_then_success env errs k 0 fuel
    (by simpa using hfail) (by simpa using hok) hfuel
  simp only [Nat.zero_add] at hloop
  have hw := waitForAPIs_of_client env fuel hclient
  rw [hloop] at hw
  refine ⟨by rw [hw]; rfl, ?_, by rw [hw], ?_, ?_⟩
  · intro small hsmall
    have hl := waitLoop_all_failures env errs small 0
      (by intro j hj; simpa using hfail j (by omega))
    rw [waitForAPIs_of_client env small hclient, hl]
    rfl
  · have h1 : ∀ e, (failedAttempt e).filter Event.isQuery =
        [Event.serverSupportsVersion metal3GV] := fun _ => rfl
    have h2 : successfulAttempt.filter Event.isQuery =
        [Event.serverSupportsVersion metal3GV] := rfl
    rw [hw]
    show (List.filter _ (_ :: (_ ++ _))).length = _
    rw [List.filter_cons_of_neg (by simp [Event.isQuery]), List.filter_append,
      List.filter_flatMap, h2]
    simp only [h1, flatMap_const_single, List.length_append, List.length_replicate,
      List.length_range, List.length_singleton]
  · have h1 : ∀ e, (failedAttempt e).filter (fun x => x.isLogInfo || x.isSleep) =
        [Event.logInfo .log (waitingMsg metal3GV e), Event.sleep 10] := fun _ => rfl
    have h2 : successfulAttempt.filter (fun x => x.isLogInfo || x.isSleep) =
        [Event.logInfo .log (foundMsg metal3GV)] := rfl
    rw [hw]
    show List.filter _ (_ :: (_ ++ _)) = _
    rw [List.filter_cons_of_neg (by simp [Event.isLogInfo, Event.isSleep]), List.filter_append,
      List.filter_flatMap, h2]
    simp only [h1]

/-- C1 at `k = 2`: two waiting lines, each followed by a sleep of 10 seconds,
then the found line. -/
theorem C1_waitForAPIs_failures_then_success_witness :
    (∀ i, i < 2 → envTwoFailures.serverSupportsVersion i = some "not found") ∧
    envTwoFailures.serverSupportsVersion 2 = none ∧
    (waitForAPIs envTwoFailures 3).result = .ok none ∧
    ((waitForAPIs envTwoFailures 3).trace.filter Event.isQuery).length = 3 ∧
    (waitForAPIs envTwoFailures 3).trace.filter (fun x => x.isLogInfo || x.isSleep) =
      [Event.logInfo .log "Waiting for API group metal3.io/v1alpha1 to be available: not found",
        Event.sleep 10,
        Event.logInfo .log "Waiting for API group metal3.io/v1alpha1 to be available: not found",
        Event.sleep 10,
        Event.logInfo .log "Found API group metal3.io/v1alpha1"] :=
  have hf : ∀ i, i < 2 → envTwoFailures.serverSupportsVersion i = some "not found" := by
    intro i hi
    simp [envTwoFailures, hi]
  have h := C1_waitForAPIs_failures_then_success envTwoFailures (fun _ => "not found") 2 3
    rfl hf rfl (by decide)
  ⟨hf, rfl, h.1, h.2.2.2.1, by rw [h.2.2.2.2]; decide⟩

/-! ## C2: a failing construction or scheme registration halts the sequence -/

/-- C2: in every execution of `main` in which the construction of the manager,
the construction of the actuator or one of the three scheme registrations is
called and fails, nothing but log lines follows the failing call: no call of a
stage that the specification puts later comes after it, no controller is
registered, `mgr.Start` is not called, and the process ends with `os.Exit(1)`
or with a panic on the error. -/
theorem C2_setup_failure_halts_sequence (cmd : CmdLine) (env : Env) (fuel : Nat)
    (ev : Event) (e : Err)
    (hkind : ev.isSetupCall = true)
    (hcalled : ev ∈ (main cmd env fuel).trace)
    (hfails : env.answer ev = some e) :
    (∀ pre post, (main cmd env fuel).trace = pre ++ ev :: post →
      ∀ x ∈ post, x.stage = none ∧ x.isLaterStageThan ev = false) ∧
    Event.addWithActuator ∉ (main cmd env fuel).trace ∧
    Event.controllerAddToManager ∉ (main cmd env fuel).trace ∧
    Event.mgrStart ∉ (main cmd env fuel).trace ∧
    ((main cmd env fuel).result = .error (.exited 1) ∨
      (main cmd env fuel).result = .error (.panicked e)) := by
  obtain ⟨hM, hA, h1, h2, h3, -, -⟩ := reach cmd env fuel
  cases ev <;> simp [Event.isSetupCall] at hkind
  case managerNew o =>
    obtain ⟨rfl, hcfg, hw⟩ := hM o hcalled
    have hmgr : env.managerNew = some e := hfails
    rw [main_managerNew_error cmd env fuel e hcfg hw hmgr]
    refine ⟨fun pre post h x hx => ?_, ?_, ?_, ?_, Or.inl rfl⟩
    · have hpost := after_split (probeTrace env fuel ++ optionsTrace cmd)
        [.logError .entryLog e "unable to set up overall controller manager"] pre post _
        (.managerNew (optionsOf cmd))
        (by simp [mem_probeTrace_of_not_isProbe, mem_optionsTrace_iff, Event.isProbe])
        (by simp) (by simp [managerTrace]) h
      subst hpost
      simp at hx
      subst hx
      exact ⟨rfl, rfl⟩
    all_goals simp [mem_managerTrace_iff, Event.isProbe]
  case newActuator =>
    obtain ⟨hcfg, hw, hmgr⟩ := hA hcalled
    have hact : env.newActuator = some e := hfails
    rw [main_newActuator_error cmd env fuel e hcfg hw hmgr hact]
    refine ⟨fun pre post h x hx => ?_, ?_, ?_, ?_, Or.inr rfl⟩
    · have hpost := after_split (managerTrace cmd env fuel) [] pre post _ .newActuator
        (by simp [mem_managerTrace_iff, Event.isProbe]) (by simp) rfl h
      subst hpost
      simp at hx
    all_goals simp [mem_managerTrace_iff, Event.isProbe]
  case apisAddToScheme =>
    obtain ⟨hcfg, hw, hmgr, hact⟩ := h1 hcalled
    have hapis : env.apisAddToScheme = some e := hfails
    rw [main_apis_error cmd env fuel e hcfg hw hmgr hact hapis]
    refine ⟨fun pre post h x hx => ?_, ?_, ?_, ?_, Or.inr rfl⟩
    · have hpost := after_split (managerTrace cmd env fuel ++ [.newActuator]) [] pre post _
        .apisAddToScheme
        (by simp [mem_managerTrace_iff, Event.isProbe]) (by simp) (by simp) h
      subst hpost
      simp at hx
    all_goals simp [mem_managerTrace_iff, Event.isProbe]
  case machinev1beta1AddToScheme =>
    obtain ⟨hcfg, hw, hmgr, hact, hapis⟩ := h2 hcalled
    have hmach : env.machinev1beta1AddToScheme = some e := hfails
    rw [main_machine_error cmd env fuel e hcfg hw hmgr hact hapis hmach]
    refine ⟨fun pre post h x hx => ?_, ?_, ?_, ?_, Or.inr rfl⟩
    · have hpost := after_split (managerTrace cmd env fuel ++ [.newActuator, .apisAddToScheme])
        [] pre post _ .machinev1beta1AddToScheme
        (by simp [mem_managerTrace_iff, Event.isProbe]) (by simp) (by simp) h
      subst hpost
      simp at hx
    all_goals simp [mem_managerTrace_iff, Event.isProbe]
  case bmoapisAddToScheme =>
    obtain ⟨hcfg, hw, hmgr, hact, hapis, hmach⟩ := h3 hcalled
    have hbmo : env.bmoapisAddToScheme = some e := hfails
    rw [main_bmo_error cmd env fuel e hcfg hw hmgr hact hapis hmach hbmo]
    refine ⟨fun pre post h x hx => ?_, ?_, ?_, ?_, Or.inr rfl⟩
    · have hpost := after_split
        (managerTrace cmd env fuel ++
          [.newActuator, .apisAddToScheme, .machinev1beta1AddToScheme])
        [] pre post _ .bmoapisAddToScheme
        (by simp [mem_managerTrace_iff, Event.isProbe]) (by simp) (by simp) h
      subst hpost
      simp at hx
    all_goals simp [mem_managerTrace_iff, Event.isProbe]

/-- C2 at the execution in which the second scheme registration fails. -/
theorem C2_setup_failure_halts_sequence_witness :
    Event.machinev1beta1AddToScheme ∈ (main ⟨none, none, none⟩ envMachineSchemeFails 1).trace ∧
    envMachineSchemeFails.answer .machinev1beta1AddToScheme = some "boom" ∧
    Event.bmoapisAddToScheme ∉ (main ⟨none, none, none⟩ envMachineSchemeFails 1).trace ∧
    Event.addWithActuator ∉ (main ⟨none, none, none⟩ envMachineSchemeFails 1).trace ∧
    Event.controllerAddToManager ∉ (main ⟨none, none, none⟩ envMachineSchemeFails 1).trace ∧
    Event.mgrStart ∉ (main ⟨none, none, none⟩ envMachineSchemeFails 1).trace :=
  have h := C2_setup_failure_halts_sequence ⟨none, none, none⟩ envMachineSchemeFails 1
    .machinev1beta1AddToScheme "boom" rfl (by decide) rfl
  ⟨by decide, rfl, by decide, h.2.1, h.2.2.1, h.2.2.2.1⟩

/-! ## C3: errors of controller registration -/

/-- C3, on the code: when `maomachine.AddWithActuator` reports an error and
everything else succeeds, `main` goes on, calls `mgr.Start` and returns with
status 0; the error of `controller.AddToManager`, by contrast, ends the process
with `os.Exit(1)` before `mgr.Start`. -/
theorem C3_addWithActuator_error_is_discarded :
    envAddWithActuatorFails.addWithActuator = some "boom" ∧
    Event.addWithActuator ∈ (main ⟨none, none, none⟩ envAddWithActuatorFails 1).trace ∧
    Event.mgrStart ∈ (main ⟨none, none, none⟩ envAddWithActuatorFails 1).trace ∧
    (main ⟨none, none, none⟩ envAddWithActuatorFails 1).result = .ok () ∧
    exitStatus (main ⟨none, none, none⟩ envAddWithActuatorFails 1).result = some 0 ∧
    main ⟨none, none, none⟩ envAddWithActuatorFails 1 = main ⟨none, none, none⟩ okEnv 1 ∧
    Event.mgrStart ∉ (main ⟨none, none, none⟩ envAddToManagerFails 1).trace ∧
    (main ⟨none, none, none⟩ envAddToManagerFails 1).result = .error (.exited 1) :=
  ⟨rfl, by decide, by decide, rfl, rfl, rfl, by decide, rfl⟩

/-! ## C4: the order of the stages -/

/-- C4, as stated, fails: in the execution in which every collaborator succeeds at
once, `main` returns normally, and its trace calls `machine.NewActuator` before the
three `AddToScheme` calls, so it does not go through the stages in the order the
specification gives. -/
theorem C4_spec_order_counterexample :
    (main ⟨none, none, none⟩ okEnv 1).result = .ok () ∧
    (main ⟨none, none, none⟩ okEnv 1).trace =
      [.flagParse, .getConfigOrDie, .newDiscoveryClientForConfig,
        .serverSupportsVersion metal3GV, .logInfo .log "Found API group metal3.io/v1alpha1",
        .managerNew ⟨":8080", false, "controller-leader-election-capbm", ""⟩,
        .newActuator, .apisAddToScheme, .machinev1beta1AddToScheme, .bmoapisAddToScheme,
        .addWithActuator, .controllerAddToManager, .mgrStart] ∧
    (main ⟨none, none, none⟩ okEnv 1).trace.indexOf Event.newActuator <
      (main ⟨none, none, none⟩ okEnv 1).trace.indexOf Event.apisAddToScheme ∧
    ¬ RespectsOrder Stage.specOrder (main ⟨none, none, none⟩ okEnv 1).trace :=
  ⟨rfl, by decide, by decide, by decide⟩

/-- C4, amended: in every execution of `main` in which all collaborators succeed,
the calls are made in the order flag parsing, config, `waitForAPIs`,
`manager.New`, `machine.NewActuator`, the three `AddToScheme` calls,
`AddWithActuator`, `controller.AddToManager`, `mgr.Start`, that is, the stages
run in the order ParseConfig, ProbeReadiness, ConstructManager,
ConstructActuator, RegisterSchemes, RegisterControllers, Run; and `main` returns. -/
theorem C4_stages_in_code_order (cmd : CmdLine) (env : Env) (fuel : Nat)
    (hcfg : env.getConfigOrDie = .config)
    (hw : (waitForAPIs env fuel).result = .ok none)
    (hmgr : env.managerNew = none)
    (hact : env.newActuator = none)
    (hapis : env.apisAddToScheme = none)
    (hmach : env.machinev1beta1AddToScheme = none)
    (hbmo : env.bmoapisAddToScheme = none)
    (hctl : env.controllerAddToManager = none)
    (hstart : env.mgrStart = none) :
    (main cmd env fuel).result = .ok () ∧
    (main cmd env fuel).trace =
      [.flagParse, .getConfigOrDie] ++ (waitForAPIs env fuel).trace ++ optionsTrace cmd ++
        [.managerNew (optionsOf cmd), .newActuator, .apisAddToScheme,
          .machinev1beta1AddToScheme, .bmoapisAddToScheme, .addWithActuator,
          .controllerAddToManager, .mgrStart] ∧
    RespectsOrder Stage.codeOrder (main cmd env fuel).trace ∧
    stagesOf (main cmd env fuel).trace =
      [.ParseConfig, .ParseConfig] ++ stagesOf (waitForAPIs env fuel).trace ++
        [.ConstructManager, .ConstructActuator, .RegisterSchemes, .RegisterSchemes,
          .RegisterSchemes, .RegisterControllers, .RegisterControllers, .Run] := by
  have hmain := main_success cmd env fuel hcfg hw hmgr hact hapis hmach hbmo hctl hstart
  have htrace : (main cmd env fuel).trace =
      [.flagParse, .getConfigOrDie] ++ (waitForAPIs env fuel).trace ++ optionsTrace cmd ++
        [.managerNew (optionsOf cmd), .newActuator, .apisAddToScheme,
          .machinev1beta1AddToScheme, .bmoapisAddToScheme, .addWithActuator,
          .controllerAddToManager, .mgrStart] := by
    rw [hmain]
    simp [managerTrace, probeTrace]
  have hstages : stagesOf (main cmd env fuel).trace =
      [.ParseConfig, .ParseConfig] ++ stagesOf (waitForAPIs env fuel).trace ++
        [.ConstructManager, .ConstructActuator, .RegisterSchemes, .RegisterSchemes,
          .RegisterSchemes, .RegisterControllers, .RegisterControllers, .Run] := by
    rw [htrace]
    have ho := stagesOf_optionsTrace cmd
    simp only [stagesOf, List.filterMap_append] at ho ⊢
    rw [ho, List.append_nil]
    rfl
  refine ⟨by rw [hmain], htrace, ?_, hstages⟩
  have hL := stagesOf_waitForAPIs env fuel
  unfold RespectsOrder
  rw [hstages, List.pairwise_append, List.pairwise_append]
  refine ⟨⟨by decide, ?_, ?_⟩, by decide, ?_⟩
  · exact List.pairwise_of_forall_mem_list (fun a ha b hb => by rw [hL a ha, hL b hb])
  · intro a ha b hb
    rw [hL b hb]
    simp only [List.mem_cons, List.mem_singleton, List.not_mem_nil, or_false] at ha
    rcases ha with rfl | rfl
    · decide
    · decide
  · intro a ha b hb
    have ha2 : Stage.codeOrder a ≤ 1 := by
      rcases List.mem_append.mp ha with h | h
      · simp only [List.mem_cons, List.mem_singleton, List.not_mem_nil, or_false] at h
        rcases h with rfl | rfl
        · decide
        · decide
      · rw [hL a h]; decide
    have hb2 : 2 ≤ Stage.codeOrder b := by
      simp at hb
      rcases hb with rfl | rfl | rfl | rfl | rfl <;> decide
    omega

/-- C4, amended, at the execution in which every collaborator succeeds at once. -/
theorem C4_stages_in_code_order_witness :
    (waitForAPIs okEnv 1).result = .ok none ∧
    (main ⟨none, none, none⟩ okEnv 1).result = .ok () ∧
    RespectsOrder Stage.codeOrder (main ⟨none, none, none⟩ okEnv 1).trace :=
  have h := C4_stages_in_code_order ⟨none, none, none⟩ okEnv 1 rfl rfl rfl rfl rfl rfl
    rfl rfl rfl
  ⟨rfl, h.1, h.2.2.1⟩

/-! ## C5: exit status and logging on fatal errors -/

/-- C5, as stated, fails: when `machine.NewActuator` fails, `main` panics with the
error, so the exit status is 2 and not 1, and the only line written to the
logger is the found line of `waitForAPIs`: no `Error` line carries the error. -/
theorem C5_exit_status_counterexample :
    envActuatorFails.newActuator = some "boom" ∧
    Event.newActuator ∈ (main ⟨none, none, none⟩ envActuatorFails 1).trace ∧
    (main ⟨none, none, none⟩ envActuatorFails 1).result = .error (.panicked "boom") ∧
    exitStatus (main ⟨none, none, none⟩ envActuatorFails 1).result ≠ some 1 ∧
    (main ⟨none, none, none⟩ envActuatorFails 1).trace.filter Event.isLogError = [] ∧
    (main ⟨none, none, none⟩ envActuatorFails 1).trace.filter Event.isLogInfo =
      [.logInfo .log "Found API group metal3.io/v1alpha1"] :=
  ⟨rfl, by decide, rfl, by decide, by decide, by decide⟩

/-- C5, amended: in every execution of `main` in which a call is made and
fails with `e`: if it is the construction of the discovery client (so that
`waitForAPIs` returns `e`), `manager.New`, `controller.AddToManager` or
`mgr.Start`, the process ends with `os.Exit(1)` and the last event before that
is an `Error` log line carrying `e`; if it is `machine.NewActuator` or one of
the three `AddToScheme` calls, `main` panics with `e`, which ends the process
with status 2: the failing call is the last event of the trace, and no `Error`
log line has been written (so `e` has not been written to the logger). -/
theorem C5_fatal_error_exits_or_panics (cmd : CmdLine) (env : Env) (fuel : Nat)
    (ev : Event) (e : Err)
    (hcalled : ev ∈ (main cmd env fuel).trace)
    (hfails : env.answer ev = some e) :
    (ev.errorIsLogged = true →
      (main cmd env fuel).result = .error (.exited 1) ∧
      exitStatus (main cmd env fuel).result = some 1 ∧
      ∃ pre logger msg, (main cmd env fuel).trace = pre ++ [.logError logger e msg]) ∧
    (ev.errorIsPanic = true →
      (main cmd env fuel).result = .error (.panicked e) ∧
      exitStatus (main cmd env fuel).result = some 2 ∧
      (∃ pre, (main cmd env fuel).trace = pre ++ [ev]) ∧
      ∀ x ∈ (main cmd env fuel).trace, x.isLogError = false) := by
  obtain ⟨hM, hA, h1, h2, h3, hC, hS⟩ := reach cmd env fuel
  have hnolog := managerTrace_no_logError cmd env fuel
  cases ev <;> simp only [Env.answer, Event.errorIsLogged, Event.errorIsPanic] at hfails ⊢
  case newDiscoveryClientForConfig =>
    have hcfg := reach_client cmd env fuel hcalled
    have hw : (waitForAPIs env fuel).result = .ok (some e) := by
      rw [waitForAPIs_of_client_error env fuel e hfails]
    rw [main_probe_error cmd env fuel e hcfg hw]
    exact ⟨fun _ => ⟨rfl, rfl, probeTrace env fuel, .entryLog, _, rfl⟩, by simp⟩
  case managerNew o =>
    obtain ⟨rfl, hcfg, hw⟩ := hM o hcalled
    rw [main_managerNew_error cmd env fuel e hcfg hw hfails]
    exact ⟨fun _ => ⟨rfl, rfl, managerTrace cmd env fuel, .entryLog, _, rfl⟩, by simp⟩
  case controllerAddToManager =>
    obtain ⟨hcfg, hw, hmgr, hact, hapis, hmach, hbmo⟩ := hC hcalled
    rw [main_addToManager_error cmd env fuel e hcfg hw hmgr hact hapis hmach hbmo hfails]
    refine ⟨fun _ => ⟨rfl, rfl, managerTrace cmd env fuel ++
      [.newActuator, .apisAddToScheme, .machinev1beta1AddToScheme, .bmoapisAddToScheme,
        .addWithActuator, .controllerAddToManager], .log,
      "Failed to add controller to manager", by simp⟩, by simp⟩
  case mgrStart =>
    obtain ⟨hcfg, hw, hmgr, hact, hapis, hmach, hbmo, hctl⟩ := hS hcalled
    rw [main_start_error cmd env fuel e hcfg hw hmgr hact hapis hmach hbmo hctl hfails]
    refine ⟨fun _ => ⟨rfl, rfl, managerTrace cmd env fuel ++
      [.newActuator, .apisAddToScheme, .machinev1beta1AddToScheme, .bmoapisAddToScheme,
        .addWithActuator, .controllerAddToManager, .mgrStart], .entryLog,
      "unable to run manager", by simp⟩, by simp⟩
  case newActuator =>
    obtain ⟨hcfg, hw, hmgr⟩ := hA hcalled
    rw [main_newActuator_error cmd env fuel e hcfg hw hmgr hfails]
    refine ⟨by simp, fun _ => ⟨rfl, rfl, ⟨managerTrace cmd env fuel, rfl⟩, fun x hx => ?_⟩⟩
    rcases List.mem_append.mp hx with h | h
    · exact hnolog x h
    · simp at h; subst h; rfl
  case apisAddToScheme =>
    obtain ⟨hcfg, hw, hmgr, hact⟩ := h1 hcalled
    rw [main_apis_error cmd env fuel e hcfg hw hmgr hact hfails]
    refine ⟨by simp, fun _ => ⟨rfl, rfl,
      ⟨managerTrace cmd env fuel ++ [.newActuator], by simp⟩, fun x hx => ?_⟩⟩
    rcases List.mem_append.mp hx with h | h
    · exact hnolog x h
    · simp at h; rcases h with rfl | rfl <;> rfl
  case machinev1beta1AddToScheme =>
    obtain ⟨hcfg, hw, hmgr, hact, hapis⟩ := h2 hcalled
    rw [main_machine_error cmd env fuel e hcfg hw hmgr hact hapis hfails]
    refine ⟨by simp, fun _ => ⟨rfl, rfl,
      ⟨managerTrace cmd env fuel ++ [.newActuator, .apisAddToScheme], by simp⟩,
      fun x hx => ?_⟩⟩
    rcases List.mem_append.mp hx with h | h
    · exact hnolog x h
    · simp at h; rcases h with rfl | rfl | rfl <;> rfl
  case bmoapisAddToScheme =>
    obtain ⟨hcfg, hw, hmgr, hact, hapis, hmach⟩ := h3 hcalled
    rw [main_bmo_error cmd env fuel e hcfg hw hmgr hact hapis hmach hfails]
    refine ⟨by simp, fun _ => ⟨rfl, rfl,
      ⟨managerTrace cmd env fuel ++
        [.newActuator, .apisAddToScheme, .machinev1beta1AddToScheme], by simp⟩,
      fun x hx => ?_⟩⟩
    rcases List.mem_append.mp hx with h | h
    · exact hnolog x h
    · simp at h; rcases h with rfl | rfl | rfl | rfl <;> rfl
  all_goals simp at hfails ⊢

/-- C5, amended, at the executions in which `controller.AddToManager` fails and in
which `machine.NewActuator` fails. -/
theorem C5_fatal_error_exits_or_panics_witness :
    (Event.controllerAddToManager ∈ (main ⟨none, none, none⟩ envAddToManagerFails 1).trace ∧
      envAddToManagerFails.answer .controllerAddToManager = some "boom" ∧
      exitStatus (main ⟨none, none, none⟩ envAddToManagerFails 1).result = some 1) ∧
    (Event.newActuator ∈ (main ⟨none, none, none⟩ envActuatorFails 1).trace ∧
      envActuatorFails.answer .newActuator = some "boom" ∧
      (main ⟨none, none, none⟩ envActuatorFails 1).result = .error (.panicked "boom")) :=
  ⟨⟨by decide, rfl,
      ((C5_fatal_error_exits_or_panics ⟨none, none, none⟩ envAddToManagerFails 1
        .controllerAddToManager "boom" (by decide) rfl).1 rfl).2.1⟩,
    ⟨by decide, rfl,
      ((C5_fatal_error_exits_or_panics ⟨none, none, none⟩ envActuatorFails 1
        .newActuator "boom" (by decide) rfl).2 rfl).1⟩⟩

/-! ## C6: the only error `waitForAPIs` returns -/

/-- C6: `waitForAPIs` returns an error exactly when the construction of the
discovery client fails; it then returns that very error and has done nothing
but the construction call (no query, no log line, no sleep).  When the client
has been constructed, no error is returned whatever the discovery queries answer. -/
theorem C6_waitForAPIs_error_iff_client_construction_fails (env : Env) (fuel : Nat) :
    (∀ e, (waitForAPIs env fuel).result = .ok (some e) ↔
      env.newDiscoveryClientForConfig = some e) ∧
    (∀ e, env.newDiscoveryClientForConfig = some e →
      waitForAPIs env fuel = ⟨[.newDiscoveryClientForConfig], .ok (some e)⟩) ∧
    (env.newDiscoveryClientForConfig = none →
      ∀ e, (waitForAPIs env fuel).result ≠ .ok (some e)) := by
  have hnone : env.newDiscoveryClientForConfig = none →
      ∀ e, (waitForAPIs env fuel).result ≠ .ok (some e) := by
    intro h e
    rw [waitForAPIs_of_client env fuel h]
    cases hr : (waitLoop env fuel 0).result <;> simp [Except.map]
  refine ⟨?_, fun e h => waitForAPIs_of_client_error env fuel e h, hnone⟩
  intro e
  cases h : env.newDiscoveryClientForConfig with
  | some e2 =>
    rw [waitForAPIs_of_client_error env fuel e2 h]
    simp
  | none =>
    have := hnone h e
    simp [this]

/-- C6 at an environment whose client construction fails with `"bad config"`. -/
theorem C6_waitForAPIs_error_iff_client_construction_fails_witness :
    envClientFails.newDiscoveryClientForConfig = some "bad config" ∧
    waitForAPIs envClientFails 5 = ⟨[.newDiscoveryClientForConfig], .ok (some "bad config")⟩ ∧
    (waitForAPIs envTwoFailures 2).result ≠ .ok (some "not found") :=
  ⟨rfl, (C6_waitForAPIs_error_iff_client_construction_fails envClientFails 5).2.1 "bad config" rfl,
    (C6_waitForAPIs_error_iff_client_construction_fails envTwoFailures 2).2.2 rfl "not found"⟩

/-! ## C7: no return when the group is always absent -/

/-- C7: once the discovery client has been constructed, if every discovery
query fails then `waitForAPIs` returns for no amount of fuel; after `N` rounds
the loop is still running and has emitted exactly `N` waiting lines and `N`
sleeps of 10 seconds, and no found line. -/
theorem C7_waitForAPIs_never_returns_when_always_absent (env : Env) (errs : Nat → Err)
    (hclient : env.newDiscoveryClientForConfig = none)
    (hfail : ∀ i, env.serverSupportsVersion i = some (errs i)) (N : Nat) :
    (∀ fuel r, (waitForAPIs env fuel).result ≠ .ok r) ∧
    (waitForAPIs env N).result = .error .running ∧
    (waitForAPIs env N).trace =
      .newDiscoveryClientForConfig :: (List.range N).flatMap (fun i => failedAttempt (errs i)) ∧
    (waitForAPIs env N).trace.filter Event.isLogInfo =
      (List.range N).map (fun i => Event.logInfo .log (waitingMsg metal3GV (errs i))) ∧
    (waitForAPIs env N).trace.filter Event.isSleep = List.replicate N (Event.sleep 10) ∧
    ((waitForAPIs env N).trace.filter Event.isQuery).length = N ∧
    Event.logInfo .log (foundMsg metal3GV) ∉ (waitForAPIs env N).trace := by
  have hw : ∀ fuel, waitForAPIs env fuel =
      ⟨.newDiscoveryClientForConfig :: (List.range fuel).flatMap (fun i => failedAttempt (errs i)),
        .error .running⟩ := by
    intro fuel
    have hl := waitLoop_all_failures env errs fuel 0 (fun j _ => hfail (0 + j))
    simp only [Nat.zero_add] at hl
    rw [waitForAPIs_of_client env fuel hclient, hl]
    rfl
  have hlog : (waitForAPIs env N).trace.filter Event.isLogInfo =
      (List.range N).map (fun i => Event.logInfo .log (waitingMsg metal3GV (errs i))) := by
    have h1 : ∀ e, (failedAttempt e).filter Event.isLogInfo =
        [Event.logInfo .log (waitingMsg metal3GV e)] := fun _ => rfl
    rw [hw N]
    show List.filter _ (_ :: _) = _
    rw [List.filter_cons_of_neg (by simp [Event.isLogInfo]), List.filter_flatMap]
    simp only [h1]
    exact flatMap_single _ _
  refine ⟨?_, by rw [hw N], by rw [hw N], hlog, ?_, ?_, ?_⟩
  · intro fuel r
    rw [hw fuel]
    simp
  · have h1 : ∀ e, (failedAttempt e).filter Event.isSleep = [Event.sleep 10] := fun _ => rfl
    rw [hw N]
    show List.filter _ (_ :: _) = _
    rw [List.filter_cons_of_neg (by simp [Event.isSleep]), List.filter_flatMap]
    simp only [h1, flatMap_const_single, List.length_range]
  · have h1 : ∀ e, (failedAttempt e).filter Event.isQuery =
        [Event.serverSupportsVersion metal3GV] := fun _ => rfl
    rw [hw N]
    show (List.filter _ (_ :: _)).length = _
    rw [List.filter_cons_of_neg (by simp [Event.isQuery]), List.filter_flatMap]
    simp only [h1, flatMap_const_single, List.length_replicate, List.length_range]
  · intro hmem
    have hin : Event.logInfo .log (foundMsg metal3GV) ∈
        (waitForAPIs env N).trace.filter Event.isLogInfo :=
      List.mem_filter.mpr ⟨hmem, rfl⟩
    rw [hlog, List.mem_map] at hin
    obtain ⟨i, _, hi⟩ := hin
    injection hi with _ hmsg
    exact waitingMsg_ne_foundMsg metal3GV metal3GV (errs i) hmsg

/-- C7 at an environment whose every query answers `"not found"`, after 4 rounds. -/
theorem C7_waitForAPIs_never_returns_when_always_absent_witness :
    envAlwaysAbsent.newDiscoveryClientForConfig = none ∧
    (∀ i, envAlwaysAbsent.serverSupportsVersion i = some "not found") ∧
    (waitForAPIs envAlwaysAbsent 4).result = .error .running ∧
    (waitForAPIs envAlwaysAbsent 4).trace.filter Event.isSleep = List.replicate 4 (Event.sleep 10) ∧
    Event.logInfo .log (foundMsg metal3GV) ∉ (waitForAPIs envAlwaysAbsent 4).trace :=
  have h := C7_waitForAPIs_never_returns_when_always_absent envAlwaysAbsent
    (fun _ => "not found") rfl (fun _ => rfl) 4
  ⟨rfl, fun _ => rfl, h.2.1, h.2.2.2.2.1, h.2.2.2.2.2.2⟩

/-! ## C8: the scheme is complete before it is used -/

/-- C8: in every execution of `main`, no write to the scheme comes after a
controller registration call or after `mgr.Start` (so every scheme write comes
before all of them), and whenever a controller registration call is made, the
three `AddToScheme` calls have been made before it and each has answered nil. -/
theorem C8_scheme_complete_before_registration_and_run (cmd : CmdLine) (env : Env)
    (fuel : Nat) :
    (main cmd env fuel).trace.Pairwise
      (fun a b => (a.isControllerRegistration = true ∨ a = .mgrStart) → b.isSchemeWrite = false) ∧
    (∀ pre x post, (main cmd env fuel).trace = pre ++ x :: post →
      x.isControllerRegistration = true →
      (Event.apisAddToScheme ∈ pre ∧ Event.machinev1beta1AddToScheme ∈ pre ∧
        Event.bmoapisAddToScheme ∈ pre) ∧
      env.apisAddToScheme = none ∧ env.machinev1beta1AddToScheme = none ∧
        env.bmoapisAddToScheme = none) := by
  have hearly : ∀ a b : Event, a.isEarly = true →
      (a.isControllerRegistration = true ∨ a = .mgrStart) → b.isSchemeWrite = false :=
    fun a _ ha h => absurd h (not_registration_of_isEarly a ha)
  have hnil : ∀ y ∈ ([] : List Event), y.isEarly = true := fun y hy => by simp at hy
  apply main_cases_on cmd env fuel (fun p =>
    p.trace.Pairwise
      (fun a b => (a.isControllerRegistration = true ∨ a = .mgrStart) → b.isSchemeWrite = false) ∧
    (∀ (pre : List Event) (x : Event) (post : List Event), p.trace = pre ++ x :: post →
      x.isControllerRegistration = true →
      (Event.apisAddToScheme ∈ pre ∧ Event.machinev1beta1AddToScheme ∈ pre ∧
        Event.bmoapisAddToScheme ∈ pre) ∧
      env.apisAddToScheme = none ∧ env.machinev1beta1AddToScheme = none ∧
        env.bmoapisAddToScheme = none))
  case died =>
    intro _
    refine ⟨by simp [Event.isControllerRegistration], fun pre x post h hx => ?_⟩
    have := no_registration [] [.flagParse, .getConfigOrDie] pre post x hnil
      (by simp [Event.isControllerRegistration]) h
    simp [hx] at this
  case nilConfig =>
    intro _
    refine ⟨by simp [Event.isControllerRegistration], fun pre x post h hx => ?_⟩
    have := no_registration [] [.flagParse, .getConfigOrDie] pre post x hnil
      (by simp [Event.isControllerRegistration]) h
    simp [hx] at this
  case probeHalted =>
    intro _ _ _
    refine ⟨?_, fun pre x post h hx => ?_⟩
    · simpa using pairwise_early_append _ _ [] (probeTrace_isEarly env fuel) hearly (by simp)
    · have := no_registration (probeTrace env fuel) [] pre post x (probeTrace_isEarly env fuel)
        (by simp) (by simpa using h)
      simp [hx] at this
  case probeError =>
    intro e _ _
    refine ⟨?_, fun pre x post h hx => ?_⟩
    · exact pairwise_early_append _ _ _ (probeTrace_isEarly env fuel) hearly (by simp)
    · have := no_registration (probeTrace env fuel) _ pre post x (probeTrace_isEarly env fuel)
        (by simp [Event.isControllerRegistration]) h
      simp [hx] at this
  case managerNewError =>
    intro e _ _ _
    refine ⟨?_, fun pre x post h hx => ?_⟩
    · exact pairwise_early_append _ _ _ (managerTrace_isEarly cmd env fuel) hearly (by simp)
    · have := no_registration _ _ pre post x (managerTrace_isEarly cmd env fuel)
        (by simp [Event.isControllerRegistration]) h
      simp [hx] at this
  case newActuatorError =>
    intro e _ _ _ _
    refine ⟨?_, fun pre x post h hx => ?_⟩
    · exact pairwise_early_append _ _ _ (managerTrace_isEarly cmd env fuel) hearly (by simp)
    · have := no_registration _ _ pre post x (managerTrace_isEarly cmd env fuel)
        (by simp [Event.isControllerRegistration]) h
      simp [hx] at this
  case apisError =>
    intro e _ _ _ _ _
    refine ⟨?_, fun pre x post h hx => ?_⟩
    · exact pairwise_early_append _ _ _ (managerTrace_isEarly cmd env fuel) hearly
        (by simp [Event.isControllerRegistration])
    · have := no_registration _ _ pre post x (managerTrace_isEarly cmd env fuel)
        (by simp [Event.isControllerRegistration]) h
      simp [hx] at this
  case machineError =>
    intro e _ _ _ _ _ _
    refine ⟨?_, fun pre x post h hx => ?_⟩
    · exact pairwise_early_append _ _ _ (managerTrace_isEarly cmd env fuel) hearly
        (by simp [Event.isControllerRegistration])
    · have := no_registration _ _ pre post x (managerTrace_isEarly cmd env fuel)
        (by simp [Event.isControllerRegistration]) h
      simp [hx] at this
  case bmoError =>
    intro e _ _ _ _ _ _ _
    refine ⟨?_, fun pre x post h hx => ?_⟩
    · exact pairwise_early_append _ _ _ (managerTrace_isEarly cmd env fuel) hearly
        (by simp [Event.isControllerRegistration])
    · have := no_registration _ _ pre post x (managerTrace_isEarly cmd env fuel)
        (by simp [Event.isControllerRegistration]) h
      simp [hx] at this
  case addToManagerError =>
    intro e _ _ _ _ hapis hmach hbmo _
    refine ⟨?_, fun pre x post h hx => ⟨?_, hapis, hmach, hbmo⟩⟩
    · exact pairwise_early_append _ _ _ (managerTrace_isEarly cmd env fuel) hearly
        (by simp [Event.isControllerRegistration, Event.isSchemeWrite])
    · exact registration_split (managerTrace cmd env fuel)
        [.logError .log e "Failed to add controller to manager"] pre post x
        (managerTrace_isEarly cmd env fuel) (by simp [Event.isControllerRegistration]) hx h
  case startError =>
    intro e _ _ _ _ hapis hmach hbmo _ _
    refine ⟨?_, fun pre x post h hx => ⟨?_, hapis, hmach, hbmo⟩⟩
    · exact pairwise_early_append _ _ _ (managerTrace_isEarly cmd env fuel) hearly
        (by simp [Event.isControllerRegistration, Event.isSchemeWrite])
    · exact registration_split (managerTrace cmd env fuel)
        [.mgrStart, .logError .entryLog e "unable to run manager"] pre post x
        (managerTrace_isEarly cmd env fuel) (by simp [Event.isControllerRegistration]) hx h
  case success =>
    intro _ _ _ _ hapis hmach hbmo _ _
    refine ⟨?_, fun pre x post h hx => ⟨?_, hapis, hmach, hbmo⟩⟩
    · exact pairwise_early_append _ _ _ (managerTrace_isEarly cmd env fuel) hearly
        (by simp [Event.isControllerRegistration, Event.isSchemeWrite])
    · exact registration_split (managerTrace cmd env fuel) [.mgrStart] pre post x
        (managerTrace_isEarly cmd env fuel) (by simp [Event.isControllerRegistration]) hx h

/-- C8 at the execution in which every collaborator succeeds at once: the three
scheme writes come before the call of `AddWithActuator`. -/
theorem C8_scheme_complete_before_registration_and_run_witness :
    (main ⟨none, none, none⟩ okEnv 1).trace =
      [.flagParse, .getConfigOrDie, .newDiscoveryClientForConfig,
        .serverSupportsVersion metal3GV, .logInfo .log (foundMsg metal3GV),
        .managerNew ⟨":8080", false, "controller-leader-election-capbm", ""⟩,
        .newActuator, .apisAddToScheme, .machinev1beta1AddToScheme, .bmoapisAddToScheme] ++
        .addWithActuator :: [.controllerAddToManager, .mgrStart] ∧
    okEnv.apisAddToScheme = none ∧ okEnv.machinev1beta1AddToScheme = none ∧
      okEnv.bmoapisAddToScheme = none :=
  have ht : (main ⟨none, none, none⟩ okEnv 1).trace =
      [.flagParse, .getConfigOrDie, .newDiscoveryClientForConfig,
        .serverSupportsVersion metal3GV, .logInfo .log (foundMsg metal3GV),
        .managerNew ⟨":8080", false, "controller-leader-election-capbm", ""⟩,
        .newActuator, .apisAddToScheme, .machinev1beta1AddToScheme, .bmoapisAddToScheme] ++
        .addWithActuator :: [.controllerAddToManager, .mgrStart] := by decide
  ⟨ht, ((C8_scheme_complete_before_registration_and_run ⟨none, none, none⟩ okEnv 1).2
    _ _ _ ht rfl).2⟩

/-! ## C9: the happy path -/

/-- C9: with an empty namespace flag and leader election off, a config, the
target group there on the first discovery query and every later call up to
`controller.AddToManager` succeeding, `main` reaches `mgr.Start` with exactly
one `Info` line, the found line, no waiting line and no sleep; and if
`mgr.Start` returns nil, `main` returns, which is exit status 0. -/
theorem C9_happy_path_reaches_run (cmd : CmdLine) (env : Env) (fuel : Nat)
    (hns : flagString cmd.watchNamespace "" = "")
    (hle : flagBool cmd.enableLeaderElection false = false)
    (hcfg : env.getConfigOrDie = .config)
    (hclient : env.newDiscoveryClientForConfig = none)
    (hfirst : env.serverSupportsVersion 0 = none)
    (hmgr : env.managerNew = none)
    (hact : env.newActuator = none)
    (hapis : env.apisAddToScheme = none)
    (hmach : env.machinev1beta1AddToScheme = none)
    (hbmo : env.bmoapisAddToScheme = none)
    (hctl : env.controllerAddToManager = none)
    (hfuel : 0 < fuel) :
    (main cmd env fuel).trace =
      happyTrace (flagString cmd.metricsAddr ":8080") ++
        (match env.mgrStart with
          | none => []
          | some e => [.logError .entryLog e "unable to run manager"]) ∧
    Event.mgrStart ∈ (main cmd env fuel).trace ∧
    (main cmd env fuel).trace.filter Event.isLogInfo = [.logInfo .log (foundMsg metal3GV)] ∧
    (∀ e, Event.logInfo .log (waitingMsg metal3GV e) ∉ (main cmd env fuel).trace) ∧
    (main cmd env fuel).trace.filter Event.isSleep = [] ∧
    (env.mgrStart = none →
      (main cmd env fuel).result = .ok () ∧ exitStatus (main cmd env fuel).result = some 0) := by
  obtain ⟨f, rfl⟩ : ∃ f, fuel = f + 1 := ⟨fuel - 1, by omega⟩
  have hwait : waitForAPIs env (f + 1) =
      ⟨[.newDiscoveryClientForConfig, .serverSupportsVersion metal3GV,
        .logInfo .log (foundMsg metal3GV)], .ok none⟩ := by
    rw [waitForAPIs_of_client env (f + 1) hclient, waitLoop_ok env f 0 hfirst]
    rfl
  have hw : (waitForAPIs env (f + 1)).result = .ok none := by rw [hwait]
  have hopts : optionsOf cmd =
      ⟨flagString cmd.metricsAddr ":8080", false, "controller-leader-election-capbm", ""⟩ := by
    simp [optionsOf, hns, hle]
  have hmt : managerTrace cmd env (f + 1) =
      [.flagParse, .getConfigOrDie, .newDiscoveryClientForConfig,
        .serverSupportsVersion metal3GV, .logInfo .log (foundMsg metal3GV),
        .managerNew ⟨flagString cmd.metricsAddr ":8080", false,
          "controller-leader-election-capbm", ""⟩] := by
    simp [managerTrace, probeTrace, optionsTrace, hwait, hns, hopts]
  have htrace : (main cmd env (f + 1)).trace =
      happyTrace (flagString cmd.metricsAddr ":8080") ++
        (match env.mgrStart with
          | none => []
          | some e => [.logError .entryLog e "unable to run manager"]) := by
    cases hstart : env.mgrStart with
    | none =>
      rw [main_success cmd env (f + 1) hcfg hw hmgr hact hapis hmach hbmo hctl hstart, hmt]
      simp [happyTrace]
    | some e =>
      rw [main_start_error cmd env (f + 1) e hcfg hw hmgr hact hapis hmach hbmo hctl hstart, hmt]
      simp [happyTrace]
  have hlog : (main cmd env (f + 1)).trace.filter Event.isLogInfo =
      [.logInfo .log (foundMsg metal3GV)] := by
    rw [htrace]
    cases env.mgrStart <;> rfl
  refine ⟨htrace, ?_, hlog, ?_, ?_, ?_⟩
  · rw [htrace]
    simp [happyTrace]
  · intro e hmem
    have hin : Event.logInfo .log (waitingMsg metal3GV e) ∈
        (main cmd env (f + 1)).trace.filter Event.isLogInfo :=
      List.mem_filter.mpr ⟨hmem, rfl⟩
    rw [hlog] at hin
    simp only [List.mem_singleton] at hin
    injection hin with _ hmsg
    exact waitingMsg_ne_foundMsg metal3GV metal3GV e hmsg
  · rw [htrace]
    cases env.mgrStart <;> rfl
  · intro hstart
    rw [main_success cmd env (f + 1) hcfg hw hmgr hact hapis hmach hbmo hctl hstart]
    exact ⟨rfl, rfl⟩

/-- C9 at the execution in which every collaborator succeeds at once and no flag
is given. -/
theorem C9_happy_path_reaches_run_witness :
    (main ⟨none, none, none⟩ okEnv 1).trace = happyTrace ":8080" ∧
    Event.mgrStart ∈ (main ⟨none, none, none⟩ okEnv 1).trace ∧
    (main ⟨none, none, none⟩ okEnv 1).trace.filter Event.isSleep = [] ∧
    exitStatus (main ⟨none, none, none⟩ okEnv 1).result = some 0 :=
  have h := C9_happy_path_reaches_run ⟨none, none, none⟩ okEnv 1 rfl rfl rfl rfl rfl rfl rfl
    rfl rfl rfl rfl (by decide)
  ⟨by simpa using h.1, h.2.1, h.2.2.2.2.1, (h.2.2.2.2.2 rfl).2⟩

/-! ## C10: the options of the manager -/

/-- C10: for every value `n`, `a`, `e` of the three flags, the options `main`
passes to `manager.New` are exactly `MetricsBindAddress = a`, `LeaderElection = e`,
`LeaderElectionID = "controller-leader-election-capbm"`, `Namespace = n`; the
only `klog` line is the watching line for `n`, it is written only if `n` is not
empty, and it has been written whenever `manager.New` is reached with `n` not
empty; a flag that is not given has its default, so that with no flags `main`
runs as with `n = ""`, `a = ":8080"`, `e = false`. -/
theorem C10_manager_options_from_flags (n a : String) (e : Bool) (env : Env) (fuel : Nat) :
    (∀ o, Event.managerNew o ∈ (main ⟨some n, some a, some e⟩ env fuel).trace →
      o = ⟨a, e, "controller-leader-election-capbm", n⟩ ∧ (o.Namespace = "" ↔ n = "")) ∧
    (∀ format arg, Event.klogInfof format arg ∈ (main ⟨some n, some a, some e⟩ env fuel).trace →
      format = watchingFormat ∧ arg = n ∧ n ≠ "") ∧
    (∀ o, Event.managerNew o ∈ (main ⟨some n, some a, some e⟩ env fuel).trace →
      (Event.klogInfof watchingFormat n ∈ (main ⟨some n, some a, some e⟩ env fuel).trace ↔
        n ≠ "")) ∧
    main ⟨none, none, none⟩ env fuel = main ⟨some "", some ":8080", some false⟩ env fuel ∧
    (∀ (cmd : CmdLine) (o : Options), Event.managerNew o ∈ (main cmd env fuel).trace →
      o = ⟨flagString cmd.metricsAddr ":8080", flagBool cmd.enableLeaderElection false,
        "controller-leader-election-capbm", flagString cmd.watchNamespace ""⟩) := by
  have hklog : ∀ format arg,
      Event.klogInfof format arg ∈ (main ⟨some n, some a, some e⟩ env fuel).trace →
      format = watchingFormat ∧ arg = n ∧ n ≠ "" := by
    apply main_cases_on ⟨some n, some a, some e⟩ env fuel (fun p =>
      ∀ format arg, Event.klogInfof format arg ∈ p.trace →
        format = watchingFormat ∧ arg = n ∧ n ≠ "") <;>
    · intros
      simp_all [mem_managerTrace_iff, mem_probeTrace_of_not_isProbe, Event.isProbe, flagString]
  have hwritten : ∀ o, Event.managerNew o ∈ (main ⟨some n, some a, some e⟩ env fuel).trace →
      n ≠ "" → Event.klogInfof watchingFormat n ∈ (main ⟨some n, some a, some e⟩ env fuel).trace := by
    apply main_cases_on ⟨some n, some a, some e⟩ env fuel (fun p =>
      ∀ o, Event.managerNew o ∈ p.trace →
        n ≠ "" → Event.klogInfof watchingFormat n ∈ p.trace) <;>
    · intros
      simp_all [mem_managerTrace_iff, mem_probeTrace_of_not_isProbe, Event.isProbe, flagString]
  refine ⟨?_, hklog, fun o ho => ⟨fun h => (hklog _ _ h).2.2, hwritten o ho⟩, rfl, ?_⟩
  · intro o ho
    obtain ⟨rfl, -, -⟩ := (reach ⟨some n, some a, some e⟩ env fuel).1 o ho
    exact ⟨rfl, Iff.rfl⟩
  · intro cmd o ho
    obtain ⟨rfl, -, -⟩ := (reach cmd env fuel).1 o ho
    rfl

/-- C10 at the flags `-namespace=openshift-machine-api -metrics-addr=:9090
-enable-leader-election`. -/
theorem C10_manager_options_from_flags_witness :
    Event.managerNew ⟨":9090", true, "controller-leader-election-capbm", "openshift-machine-api"⟩ ∈
      (main ⟨some "openshift-machine-api", some ":9090", some true⟩ okEnv 1).trace ∧
    Event.klogInfof "Watching machine-api objects only in namespace %q for reconciliation."
        "openshift-machine-api" ∈
      (main ⟨some "openshift-machine-api", some ":9090", some true⟩ okEnv 1).trace :=
  have hmem : Event.managerNew
      ⟨":9090", true, "controller-leader-election-capbm", "openshift-machine-api"⟩ ∈
      (main ⟨some "openshift-machine-api", some ":9090", some true⟩ okEnv 1).trace := by decide
  ⟨hmem, ((C10_manager_options_from_flags "openshift-machine-api" ":9090" true
    okEnv 1).2.2.1 _ hmem).2 (by decide)⟩

end CapbmManager
